import Mathlib

/-
Verification development for the mcp-proxy-studio backend supervisor
(src/backend/app.py, src/backend/settings_store.py).

The backend is shallowly embedded: pydantic models become Lean structures,
the asyncio supervisor's mutable dictionaries become association lists in an
explicit state record, child-process spawning and readiness probes become an
oracle record `Env`, and exceptions become `Except String`.  Python raises
propagate AFTER mutations, so every stateful operation returns
`SupState × Except String α` (the state travels with the error).
-/

namespace MPS

/- ### Data model (app.py lines 48-115) -/

/-- EndpointType enum from app.py. -/
inductive EndpointType where
  | stdio
  | sse
  | streamable_http
  | openapi
  deriving DecidableEq, Repr

/-- Transport enum from app.py (values "sse" / "streamablehttp"). -/
inductive Transport where
  | sse
  | streamable_http
  deriving DecidableEq, Repr

/-- Header model: one forwarded key/value pair. -/
structure Header where
  key : String
  value : String
  deriving DecidableEq, Repr

/-- PreviousConfig model: snapshot of prior fields captured on update. -/
structure PreviousConfig where
  sse_url : Option String := none
  transport : Option Transport := none
  command : Option String := none
  server_transport : Option Transport := none
  deriving DecidableEq, Repr

/-- Flow record as stored (FlowBase plus id / timestamps / previous).
Timestamps are modelled as Nat. -/
structure Flow where
  id : String
  name : String
  route : Option String := none
  description : Option String := none
  source_type : EndpointType := .sse
  target_type : EndpointType := .sse
  sse_url : Option String := none
  openapi_base_url : Option String := none
  openapi_spec_url : Option String := none
  transport : Transport := .sse
  server_transport : Transport := .sse
  stateless : Bool := false
  auto_start : Bool := true
  command : Option String := none
  args : List String := []
  env : List (String × String) := []
  headers : List Header := []
  allow_origins : List String := []
  created_at : Nat := 0
  updated_at : Nat := 0
  previous : PreviousConfig := {}
  deriving DecidableEq, Repr

/-- FlowCreate payload: FlowBase fields plus an optional id. -/
structure FlowCreate where
  name : String
  route : Option String := none
  description : Option String := none
  source_type : EndpointType := .sse
  target_type : EndpointType := .sse
  sse_url : Option String := none
  openapi_base_url : Option String := none
  openapi_spec_url : Option String := none
  transport : Transport := .sse
  server_transport : Transport := .sse
  stateless : Bool := false
  auto_start : Bool := true
  command : Option String := none
  args : List String := []
  env : List (String × String) := []
  headers : List Header := []
  allow_origins : List String := []
  id : Option String := none
  deriving DecidableEq, Repr

/-- FlowUpdate payload: FlowBase fields plus an optional previous snapshot. -/
structure FlowUpdate where
  name : String
  route : Option String := none
  description : Option String := none
  source_type : EndpointType := .sse
  target_type : EndpointType := .sse
  sse_url : Option String := none
  openapi_base_url : Option String := none
  openapi_spec_url : Option String := none
  transport : Transport := .sse
  server_transport : Transport := .sse
  stateless : Bool := false
  auto_start : Bool := true
  command : Option String := none
  args : List String := []
  env : List (String × String) := []
  headers : List Header := []
  allow_origins : List String := []
  previous : Option PreviousConfig := none
  deriving DecidableEq, Repr

/-- Settings from settings_store.py; `SettingsStore.get` always returns these
defaults, ignoring the settings file. -/
structure Settings where
  host : String := "0.0.0.0"
  sse_port : Nat := 8002
  stream_port : Nat := 8001
  openapi_port : Nat := 8003
  inspector_public_host : String := "0.0.0.0"
  deriving DecidableEq, Repr

/-- The settings snapshot `settings_store.get()` returns (always defaults). -/
def defaultSettings : Settings := {}

/-- Python truthiness test for an optional string: None and the empty string
are falsy (`not flow.sse_url` and friends). -/
def optFalsy : Option String → Bool
  | none => true
  | some s => s = ""

/-- `flow.route or flow.name`: the route with Python or-falsiness defaulting
to the name (FlowStore.find_by_route line 171). -/
def flowRoute (f : Flow) : String :=
  match f.route with
  | some r => if r = "" then f.name else r
  | none => f.name

/-- Server key base: `flow.route or flow.name or "default"`. -/
def routeKey (f : Flow) : String :=
  if flowRoute f = "" then "default" else flowRoute f

/-- FlowStore.find_by_route: first flow whose route-or-name equals `route`
and whose target_type matches the filter when given. -/
def findByRoute (flows : List Flow) (route : String) (tt : Option EndpointType) : Option Flow :=
  flows.find? fun f =>
    flowRoute f = route ∧ (tt = none ∨ tt = some f.target_type)

/- ### URL parsing (models urllib.parse.urlparse for http URLs) -/

/-- Parsed URL components.  `host` is the lowercased hostname ("" when
absent), `portRaw` the raw text after the last colon of the netloc,
`path` the path component, `tail` the query/fragment remainder (kept only so
that unparsing round-trips). -/
structure ParsedUrl where
  scheme : String := ""
  host : String := ""
  portRaw : Option String := none
  path : String := ""
  tail : String := ""
  deriving DecidableEq, Repr

/-- Split a character list at the first occurrence of "://" (the scheme
separator); none when absent.  Structural recursion so that concrete URLs
reduce definitionally. -/
def splitScheme : List Char → Option (List Char × List Char)
  | [] => none
  | ':' :: '/' :: '/' :: rest => some ([], rest)
  | c :: rest =>
    match splitScheme rest with
    | some ab => some (c :: ab.1, ab.2)
    | none => none

/-- Split a character list at the first character satisfying `p` (the
delimiter stays with the second component). -/
def breakAt (p : Char → Bool) : List Char → List Char × List Char
  | [] => ([], [])
  | c :: rest =>
    if p c then ([], c :: rest)
    else
      let r := breakAt p rest
      (c :: r.1, r.2)

/-- Split a character list on a separator character. -/
def splitOnChar (sep : Char) : List Char → List (List Char)
  | [] => [[]]
  | c :: rest =>
    let r := splitOnChar sep rest
    if c = sep then [] :: r
    else
      match r with
      | [] => [[c]]
      | h :: t => (c :: h) :: t

/-- Rejoin character lists with a separator character. -/
def joinWith (sep : Char) : List (List Char) → List Char
  | [] => []
  | [x] => x
  | x :: rest => x ++ sep :: joinWith sep rest

/-- Split a netloc host-port part at the last colon. -/
def splitHostPortL (hp : List Char) : List Char × Option (List Char) :=
  let parts := splitOnChar ':' hp
  match parts with
  | [] => (hp, none)
  | [h] => (h, none)
  | _ =>
    let portStr := (parts.getLast?).getD []
    let host := joinWith ':' (parts.dropLast)
    (host, if portStr = [] then none else some portStr)

/-- Model of urlparse for the URLs the supervisor handles: absolute
`scheme://netloc/path?query` URLs.  Strings without "://" are treated as
bare paths (no hostname, no port), matching urlparse in having no netloc. -/
def parseUrl (s : String) : ParsedUrl :=
  let cs := s.toList
  match splitScheme cs with
  | none =>
    let pq := breakAt (fun c => c = '?' ∨ c = '#') cs
    { path := String.mk pq.1, tail := String.mk pq.2 }
  | some schRem =>
    let nl := breakAt (fun c => c = '/' ∨ c = '?' ∨ c = '#') schRem.2
    let pq := breakAt (fun c => c = '?' ∨ c = '#') nl.2
    let hostport := ((splitOnChar '@' nl.1).getLast?).getD []
    let hp := splitHostPortL hostport
    { scheme := String.mk schRem.1, host := String.mk (hp.1.map Char.toLower),
      portRaw := hp.2.map String.mk, path := String.mk pq.1, tail := String.mk pq.2 }

/-- Numeric value of an all-digit character list. -/
def natOfDigits (l : List Char) : Nat :=
  l.foldl (fun acc c => acc * 10 + (c.toNat - 48)) 0

/-- Parse a port string the way int() inside urlparse does, rejecting
empty or non-numeric text and out-of-range values. -/
def parsePortStr (s : String) : Option Nat :=
  let l := s.toList
  if l ≠ [] ∧ l.all Char.isDigit then
    let n := natOfDigits l
    if n ≤ 65535 then some n else none
  else none

/-- Numeric port of a parsed URL (`parsed.port` when it does not raise). -/
def ParsedUrl.portNat (u : ParsedUrl) : Option Nat :=
  match u.portRaw with
  | none => none
  | some s => parsePortStr s

/-- Whether accessing `parsed.port` succeeds (no ValueError). -/
def ParsedUrl.portReadable (u : ParsedUrl) : Bool :=
  match u.portRaw with
  | none => true
  | some s => (parsePortStr s).isSome

/-- Rebuild a URL after the netloc host has been replaced, keeping the
numeric port (mirrors `urlunparse(parsed._replace(netloc=...))` at app.py
lines 563-566). -/
def unparseWithHost (u : ParsedUrl) (newHost : String) : String :=
  let netloc :=
    match u.portNat with
    | some p => newHost ++ ":" ++ toString p
    | none => newHost
  u.scheme ++ "://" ++ netloc ++ u.path ++ u.tail

/-- Non-empty path segments of a URL (app.py line 711). -/
def urlPathParts (s : String) : List String :=
  ((splitOnChar '/' (parseUrl s).path.toList).filter (fun p => p ≠ [])).map String.mk

/- ### Dependency resolver (ProcessManager._resolve_dependency, lines 689-720) -/

/-- The local-host set built at app.py lines 701-707 (for pydantic string
fields `x or ""` is the identity, so the set is just these five strings). -/
def localHosts (settings : Settings) : List String :=
  ["127.0.0.1", "localhost", "0.0.0.0", settings.host, settings.inspector_public_host]

/-- Target type the resolver looks up: streamable_http when the second path
segment is "mcp", else sse (app.py line 718). -/
def endpointTargetType (u : String) : EndpointType :=
  if (urlPathParts u).getD 1 "" = "mcp" then .streamable_http else .sse

/-- ProcessManager._resolve_dependency.  Returns `.error` where the Python
would raise ValueError reading `parsed.port`. -/
def resolveDependency (settings : Settings) (flows : List Flow) (flow : Flow) :
    Except String (Option Flow) :=
  if flow.source_type = .stdio then .ok none
  else if optFalsy flow.sse_url then .ok none
  else
    let u := flow.sse_url.getD ""
    let parsed := parseUrl u
    if ¬ (localHosts settings).contains parsed.host then .ok none
    else if ¬ parsed.portReadable then .error "ValueError: invalid literal for port"
    else
      let parts := urlPathParts u
      if parsed.portNat.getD 0 = 0 ∨ parts.length < 2 then .ok none
      else if parsed.portNat.getD 0 = settings.openapi_port then .ok none
      else
        .ok (findByRoute flows (parts.getD 0 "") (some (endpointTargetType u)))

/- ### Event broadcaster (EventBroadcaster, lines 191-213) -/

/-- Queue capacity used by EventBroadcaster.register (maxsize=100). -/
def queueCap : Nat := 100

/-- register(): a fresh bounded queue is appended to the listener list. -/
def registerListener {α : Type} (ls : List (List α)) : List (List α) :=
  ls ++ [[]]

/-- broadcast(payload): the for-loop over listeners; a non-full queue gets
the payload appended and stays registered, a full queue is skipped and
dropped from the registry. -/
def broadcastLoop {α : Type} (p : α) : List (List α) → List (List α)
  | [] => []
  | q :: rest =>
    if q.length < queueCap then (q ++ [p]) :: broadcastLoop p rest
    else broadcastLoop p rest

/-- Sequential broadcasts of a list of payloads in call order. -/
def broadcastAll {α : Type} (ps : List α) (ls : List (List α)) : List (List α) :=
  ps.foldl (fun acc p => broadcastLoop p acc) ls

/- ### Association-list helpers (Python dict semantics) -/

/-- Dict lookup: first pair with the given key. -/
def aget {κ β : Type} [DecidableEq κ] (k : κ) : List (κ × β) → Option β
  | [] => none
  | (a, b) :: rest => if a = k then some b else aget k rest

/-- Dict assignment `d[k] = v`: replace in place, else append. -/
def aset {κ β : Type} [DecidableEq κ] (k : κ) (v : β) : List (κ × β) → List (κ × β)
  | [] => [(k, v)]
  | (a, b) :: rest => if a = k then (k, v) :: rest else (a, b) :: aset k v rest

/-- Dict deletion `del d[k]`. -/
def aerase {κ β : Type} [DecidableEq κ] (k : κ) : List (κ × β) → List (κ × β)
  | [] => []
  | (a, b) :: rest => if a = k then aerase k rest else (a, b) :: aerase k rest

/- ### Config documents and entries -/

/-- Values appearing in a mcpServers entry, as Python would hold them. -/
inductive PyVal where
  | pnull
  | pstr (s : String)
  | plist (xs : List String)
  | pdict (kvs : List (String × String))
  | pheaders (hs : List (List (String × String)))
  deriving DecidableEq, Repr

/-- Python membership test `v in (None, {}, [])` used by the key-stripping
comprehensions (app.py lines 364, 584, 627). -/
def pyEmptyLike : PyVal → Bool
  | .pnull => true
  | .plist [] => true
  | .pdict [] => true
  | .pheaders [] => true
  | _ => false

/-- One mcpServers entry: ordered key/value pairs. -/
abbrev Entry := List (String × PyVal)

/-- Strip keys whose values are None, {} or []. -/
def stripEntry (e : Entry) : Entry :=
  e.filter (fun kv => ¬ pyEmptyLike kv.2)

/-- Optional string to PyVal (None becomes pnull). -/
def optPy : Option String → PyVal
  | none => .pnull
  | some s => .pstr s

/-- Headers in the non-OpenAPI (mcp-proxy) shape: a list of one-entry dicts,
or None when the flow has no headers. -/
def headersListPy (hs : List Header) : PyVal :=
  match hs with
  | [] => .pnull
  | _ => .pheaders (hs.map (fun h => [(h.key, h.value)]))

/-- Headers in the OpenAPI (mcpo) shape: an object map, or None when empty. -/
def headersDictPy (hs : List Header) : PyVal :=
  match hs with
  | [] => .pnull
  | _ => .pdict (hs.map (fun h => (h.key, h.value)))

/-- A written config document: the mcp-proxy shape (with the mcpProxy
header block) or the mcpo shape (mcpServers only). -/
inductive ConfigDoc where
  | proxy (baseURL addr name ptype : String) (servers : List (String × Entry))
  | openapi (servers : List (String × Entry))
  deriving DecidableEq, Repr

/- ### Supervisor state -/

/-- ProcessInfo for a child process (pid instead of a live handle). -/
structure ProcInfo where
  label : String
  flow_ids : List String
  pid : Nat
  started_at : Nat
  command : List String
  port : Option Nat := none
  mode : String := "unknown"
  exit_code : Option Int := none
  last_event : Option Nat := none
  deriving DecidableEq, Repr

/-- A broadcast payload (type discriminator plus flowId label). -/
structure Event where
  etype : String
  flowId : String
  line : Option String := none
  code : Option Int := none
  deriving DecidableEq, Repr

/-- Environment oracle for external effects: child spawning (None models
FileNotFoundError), TCP port probes, HTTP readiness probes, the free
ephemeral port, and the clock. -/
structure Env where
  spawn : List String → Option Nat
  portOpen : Nat → Bool
  upstreamReady : String → Bool
  freePort : Nat := 9000
  now : Nat := 0

/-- ProcessManager state plus observable traces: written config files,
broadcast events, warning logs, and the ports whose gateway was
(re)started. -/
structure SupState where
  active : List (Nat × List String) := []
  processes : List (Nat × ProcInfo) := []
  helpers : List (String × ProcInfo) := []
  files : List (String × ConfigDoc) := []
  events : List Event := []
  warns : List String := []
  restarts : List Nat := []
  deriving DecidableEq, Repr

/-- Member set currently attached to a port. -/
def activeOf (st : SupState) (p : Nat) : List String :=
  (aget p st.active).getD []

/-- Append a warning log line. -/
def addWarn (st : SupState) (w : String) : SupState :=
  { st with warns := st.warns ++ [w] }

/-- Gateway binary (MCP_PROXY_BIN default). -/
def proxyBin : String := "mcp-proxy"

/-- OpenAPI gateway argv prefix (shlex.split of MCP_OPENAPI_BIN default). -/
def openapiBin : List String := ["uvx", "mcpo"]

/-- Runtime directory prefix for config paths. -/
def runtimeDir : String := "runtime"

/-- Label attached to a gateway child of a port. -/
def portLabel (port : Nat) : String :=
  s!"port-{port}"

/-- Label attached to an OpenAPI helper child. -/
def helperLabel (flowId : String) : String :=
  s!"openapi-{flowId}"

/-- ProcessManager._port_for_flow. -/
def portForFlow (settings : Settings) (f : Flow) : Nat :=
  if f.target_type = .openapi then settings.openapi_port
  else if f.target_type = .streamable_http then settings.stream_port
  else settings.sse_port

/-- ProcessManager._stop_openapi_helper: remove the helper record (the
process-group kill is an external effect). -/
def stopOpenapiHelper (flowId : String) (st : SupState) : SupState :=
  { st with helpers := aerase flowId st.helpers }

/-- Best-effort stop of the OpenAPI helpers of a list of flows (the for
loop at app.py lines 522-523). -/
def stopMany (fids : List String) (st : SupState) : SupState :=
  fids.foldl (fun acc fid => stopOpenapiHelper fid acc) st

/-- ProcessManager._terminate_port: if a running child exists, kill it and
best-effort stop OpenAPI helpers of its attached flows; then drop the port
from the process table. -/
def terminatePort (port : Nat) (st : SupState) : SupState :=
  let st₁ :=
    match aget port st.processes with
    | some info =>
      if info.exit_code = none then stopMany info.flow_ids st
      else st
    | none => st
  { st₁ with processes := aerase port st₁.processes }

/-- The helper argv spawned by _ensure_openapi_helper. -/
def helperCmd (flow : Flow) (port : Nat) : List String :=
  ["npx", "-y", "@ivotoby/openapi-mcp-server",
   "--api-base-url", flow.openapi_base_url.getD "",
   "--openapi-spec", flow.openapi_spec_url.getD "",
   "--transport", "http", "--port", toString port]

/-- The fresh-spawn path of _ensure_openapi_helper (lines 449-489): pick a
free port, spawn the side-car in its own process group, register it, then
wait for the port; on timeout raise with the helper left registered. -/
def ensureSpawnHelper (env : Env) (flow : Flow) (st : SupState) :
    SupState × Except String String :=
  let port := env.freePort
  match env.spawn (helperCmd flow port) with
  | none => (st, .error "binaire introuvable : npx")
  | some pid =>
    let info : ProcInfo :=
      { label := helperLabel flow.id, flow_ids := [flow.id], pid := pid,
        started_at := env.now, command := helperCmd flow port, port := some port,
        mode := "openapi-helper" }
    let st₁ := { st with helpers := aset flow.id info st.helpers }
    if env.portOpen port then
      (st₁, .ok s!"http://127.0.0.1:{port}/mcp")
    else
      (st₁, .error "Le serveur OpenAPI MCP n\x27a pas d\xe9marr\xe9 \xe0 temps")

/-- ProcessManager._ensure_openapi_helper (lines 440-489).  Reuses a
running, ready helper for the flow; otherwise spawns a fresh one. -/
def ensureOpenapiHelper (env : Env) (flow : Flow) (st : SupState) :
    SupState × Except String String :=
  if optFalsy flow.openapi_base_url ∨ optFalsy flow.openapi_spec_url then
    (st, .error "Base URL et spec OpenAPI requises pour une source openapi")
  else
    match aget flow.id st.helpers with
    | some info =>
      if info.exit_code = none ∧ env.portOpen (info.port.getD 0) then
        let p := info.port.getD 0
        (st, .ok s!"http://127.0.0.1:{p}/mcp")
      else ensureSpawnHelper env flow st
    | none => ensureSpawnHelper env flow st

/-- Collision-suffixed server key: try base, then base-1, base-2, ... until
unused (the while-loop at lines 547-551 and 604-608). -/
def chooseKey (used : List String) (base : String) : String :=
  let cands := base :: (List.range (used.length + 1)).map (fun i =>
    let n := i + 1
    s!"{base}-{n}")
  (cands.find? (fun k => ¬ used.contains k)).getD base

/-- Loop body of the non-OpenAPI port config builder (lines 602-627).
Threads the supervisor state because openapi-source flows spawn helpers. -/
def buildProxyServers (env : Env) : List Flow → List (String × Entry) → SupState →
    SupState × Except String (List (String × Entry))
  | [], servers, st => (st, .ok servers)
  | flow :: rest, servers, st =>
    let key := chooseKey (servers.map (fun kv => kv.1)) (routeKey flow)
    if flow.source_type = .stdio ∨ flow.target_type = .stdio then
      let entry := stripEntry
        [("command", optPy flow.command), ("args", .plist flow.args),
         ("env", .pdict flow.env)]
      buildProxyServers env rest (servers ++ [(key, entry)]) st
    else
      let upstream : SupState × Except String (Option String) :=
        if flow.source_type = .openapi then
          match ensureOpenapiHelper env flow st with
          | (st₁, .ok u) => (st₁, .ok (some u))
          | (st₁, .error e) => (st₁, .error e)
        else (st, .ok flow.sse_url)
      match upstream with
      | (st₁, .error e) => (st₁, .error e)
      | (st₁, .ok up) =>
        let tt := if flow.source_type = .streamable_http ∨ flow.source_type = .openapi
                  then "streamable-http" else "sse"
        let entry := stripEntry
          [("url", optPy up), ("headers", headersListPy flow.headers),
           ("transportType", .pstr tt)]
        buildProxyServers env rest (servers ++ [(key, entry)]) st₁

/-- Loop body of the OpenAPI port config builder (lines 545-584), including
the dedented overwrite at lines 579-584: the `{type, url, headers}` entry is
written for EVERY flow, reusing the function-scoped `upstream_url` variable
(modelled by `upVar`; `none` means the variable is still unbound, so the
Python raises NameError). -/
def buildOpenapiServers (settings : Settings) (env : Env) :
    List Flow → List (String × Entry) → Option String → SupState →
    SupState × Except String (List (String × Entry))
  | [], servers, _, st => (st, .ok servers)
  | flow :: rest, servers, upVar, st =>
    let key := chooseKey (servers.map (fun kv => kv.1)) (routeKey flow)
    if flow.source_type = .stdio then
      let stdioEntry : Entry :=
        [("command", optPy flow.command), ("args", .plist flow.args),
         ("env", .pdict flow.env)]
      let servers₁ := servers ++ [(key, stdioEntry)]
      match upVar with
      | none => (st, .error "NameError: name upstream_url is not defined")
      | some u =>
        let entry := stripEntry
          [("type", .pstr "sse"), ("url", .pstr u),
           ("headers", headersDictPy flow.headers)]
        buildOpenapiServers settings env rest (aset key entry servers₁) upVar st
    else
      let u0 := flow.sse_url.getD ""
      let parsed := parseUrl u0
      if ¬ parsed.portReadable then
        (st, .error "ValueError: invalid literal for port")
      else
        let needRewrite := parsed.host = "0.0.0.0" ∨ parsed.host = "localhost"
        let ov := if settings.inspector_public_host = "" then "host.docker.internal"
                  else settings.inspector_public_host
        let u1 := if needRewrite then unparseWithHost parsed ov else u0
        let st₁ :=
          match parsed.portNat with
          | some p =>
            if p ≠ 0 then
              if env.portOpen p then st
              else
                let fid := flow.id
                addWarn st s!"Upstream port {p} not ready for OpenAPI flow {fid}"
            else st
          | none => st
        if env.upstreamReady u1 then
          let tt := if flow.source_type = .streamable_http then "streamable-http" else "sse"
          let entry := stripEntry
            [("type", .pstr tt), ("url", .pstr u1),
             ("headers", headersDictPy flow.headers)]
          buildOpenapiServers settings env rest (servers ++ [(key, entry)]) (some u1) st₁
        else
          let fid := flow.id
          let st₂ := addWarn st₁ s!"Upstream endpoint {u1} not ready for OpenAPI flow {fid}"
          buildOpenapiServers settings env rest servers (some u1) st₂

/-- Record the freshly spawned gateway child and broadcast flow_started
(lines 647-670). -/
def spawnGateway (env : Env) (port : Nat) (ids : List String) (mode : String)
    (cmd : List String) (st : SupState) : SupState × Except String Unit :=
  match env.spawn cmd with
  | none =>
    let binName := cmd.headD ""
    (st, .error s!"binaire introuvable : {binName}")
  | some pid =>
    let info : ProcInfo :=
      { label := portLabel port, flow_ids := ids, pid := pid,
        started_at := env.now, command := cmd, port := some port, mode := mode }
    let ev : Event := { etype := "flow_started", flowId := portLabel port }
    ({ st with processes := aset port info st.processes,
               events := st.events ++ [ev] }, .ok ())

/-- ProcessManager._restart_port (lines 527-670): terminate, rebuild the
combined config, write it, and respawn the gateway. -/
def restartPort (settings : Settings) (flows : List Flow) (env : Env)
    (port : Nat) (st : SupState) : SupState × Except String Unit :=
  let st₀ := terminatePort port st
  let ids := activeOf st₀ port
  let attached := flows.filter (fun f => ids.contains f.id)
  if attached.isEmpty then (st₀, .ok ())
  else
    let st₁ := { st₀ with restarts := st₀.restarts ++ [port] }
    if port = settings.openapi_port then
      match buildOpenapiServers settings env attached [] none st₁ with
      | (st₂, .error e) => (st₂, .error e)
      | (st₂, .ok servers) =>
        let path := s!"{runtimeDir}/port-{port}-openapi.config.json"
        let st₃ := { st₂ with files := aset path (ConfigDoc.openapi servers) st₂.files }
        let cmd := openapiBin ++ ["--port", toString port, "--config", path, "--hot-reload"]
        spawnGateway env port ids "openapi" cmd st₃
    else
      let ptype := if port = settings.stream_port then "streamable-http" else "sse"
      match buildProxyServers env attached [] st₁ with
      | (st₂, .error e) => (st₂, .error e)
      | (st₂, .ok servers) =>
        let host := settings.host
        let doc := ConfigDoc.proxy s!"http://{host}:{port}" s!":{port}"
          s!"mcp-proxy-{ptype}" ptype servers
        let path := s!"{runtimeDir}/port-{port}.config.json"
        let st₃ := { st₂ with files := aset path doc st₂.files }
        let cmd := [proxyBin, "-config", path]
        spawnGateway env port ids ptype cmd st₃

/-- ProcessManager._activate_flow (lines 681-687): attach the flow to its
port; a freshly attached flow triggers a port restart, an already attached
one is a no-op. -/
def activateFlow (settings : Settings) (flows : List Flow) (env : Env)
    (flow : Flow) (st : SupState) : SupState × Except String Unit :=
  let port := portForFlow settings flow
  if (activeOf st port).contains flow.id then (st, .ok ())
  else
    let st₁ := { st with active := aset port (activeOf st port ++ [flow.id]) st.active }
    restartPort settings flows env port st₁

/-- ProcessManager._start_with_dependencies (lines 672-679), fuel-indexed
(the Python recursion terminates because the visited set grows). -/
def startWithDeps (settings : Settings) (flows : List Flow) (env : Env) :
    Nat → Flow → List String → SupState → SupState × Except String (List String)
  | 0, _, _, st => (st, .error "recursion limit")
  | fuel + 1, flow, visited, st =>
    if visited.contains flow.id then (st, .ok visited)
    else
      let visited₁ := visited ++ [flow.id]
      match resolveDependency settings flows flow with
      | .error e => (st, .error e)
      | .ok none =>
        match activateFlow settings flows env flow st with
        | (st₁, .ok _) => (st₁, .ok visited₁)
        | (st₁, .error e) => (st₁, .error e)
      | .ok (some dep) =>
        match startWithDeps settings flows env fuel dep visited₁ st with
        | (st₁, .error e) => (st₁, .error e)
        | (st₁, .ok visited₂) =>
          match activateFlow settings flows env flow st₁ with
          | (st₂, .ok _) => (st₂, .ok visited₂)
          | (st₂, .error e) => (st₂, .error e)

/-- The live-state dict returned by ProcessManager._state (lines 393-405). -/
structure StateDict where
  running : Bool
  pid : Option Nat := none
  started_at : Option Nat := none
  port : Option Nat := none
  command : List String := []
  exit_code : Option Int := none
  last_event : Option Nat := none
  deriving DecidableEq, Repr

/-- ProcessManager._state: the first recorded process containing the flow
and still running yields a rich dict, otherwise running=false. -/
def stateOf (st : SupState) (flowId : String) : StateDict :=
  match st.processes.find? (fun pi =>
      pi.2.flow_ids.contains flowId ∧ pi.2.exit_code = none) with
  | some pi =>
    { running := true, pid := some pi.2.pid, started_at := some pi.2.started_at,
      port := pi.2.port, command := pi.2.command, exit_code := pi.2.exit_code,
      last_event := pi.2.last_event }
  | none => { running := false }

/-- ProcessManager.start: run the dependency-aware activation under the
supervisor mutex and return the flow state. -/
def startFlow (settings : Settings) (flows : List Flow) (env : Env)
    (flow : Flow) (st : SupState) : SupState × Except String StateDict :=
  match startWithDeps settings flows env (flows.length + 1) flow [] st with
  | (st₁, .ok _) => (st₁, .ok (stateOf st₁ flow.id))
  | (st₁, .error e) => (st₁, .error e)

/-- Events broadcast by one log pump (ProcessManager._pipe_logs, lines
286-311): one log event per output line, then a flow_exited, all labelled
with the ProcessInfo label. -/
def pipeLogsEvents (label : String) (lines : List String) (exitCode : Option Int) :
    List Event :=
  (lines.map (fun t => { etype := "log", flowId := label, line := some t })) ++
  [{ etype := "flow_exited", flowId := label, code := exitCode }]

/- ### Flow CRUD endpoints (app.py lines 833-900) -/

/-- FlowStore.upsert: replace the first record with the same id, else
append. -/
def upsertFlow : List Flow → Flow → List Flow
  | [], f => [f]
  | g :: rest, f => if g.id = f.id then f :: rest else g :: upsertFlow rest f

/-- Merge an optional incoming value over the existing one (the
`{k: v for k, v in incoming.items() if v is not None}` update). -/
def mergeOpt {α : Type} (inc : Option α) (ex : Option α) : Option α :=
  match inc with
  | some v => some v
  | none => ex

/-- Derived transport: streamable-http iff the source is streamable_http or
openapi (lines 841-845 / 882-886). -/
def derivedTransport (src : EndpointType) : Transport :=
  if src = .streamable_http ∨ src = .openapi then .streamable_http else .sse

/-- Derived server transport (lines 846-852 / 887-892). -/
def derivedServerTransport (src tgt : EndpointType) : Transport :=
  if tgt = .streamable_http ∨ (tgt = .stdio ∧ src = .streamable_http)
  then .streamable_http else .sse

/-- create_flow endpoint body (lines 834-857), up to the store write.  The
only write-time validation is invariant 1 (openapi source must target
streamable_http). -/
def createFlow (payload : FlowCreate) (genId : String) (now : Nat) :
    Except String Flow :=
  if payload.source_type = .openapi ∧ payload.target_type ≠ .streamable_http then
    .error "Une source openapi doit cibler le mode streamable_http"
  else
    let fid := match payload.id with
      | some i => if i = "" then genId else i
      | none => genId
    let route := match payload.route with
      | some r => if r = "" then some payload.name else some r
      | none => some payload.name
    .ok { id := fid, name := payload.name, route := route,
          description := payload.description,
          source_type := payload.source_type, target_type := payload.target_type,
          sse_url := payload.sse_url,
          openapi_base_url := payload.openapi_base_url,
          openapi_spec_url := payload.openapi_spec_url,
          transport := derivedTransport payload.source_type,
          server_transport := derivedServerTransport payload.source_type payload.target_type,
          stateless := payload.stateless, auto_start := payload.auto_start,
          command := payload.command, args := payload.args, env := payload.env,
          headers := payload.headers, allow_origins := payload.allow_origins,
          created_at := now, updated_at := now, previous := {} }

/-- create_flow including the store write: on rejection nothing is
written. -/
def createFlowEP (flows : List Flow) (payload : FlowCreate) (genId : String)
    (now : Nat) : List Flow × Except String Flow :=
  match createFlow payload genId now with
  | .error e => (flows, .error e)
  | .ok f => (upsertFlow flows f, .ok f)

/-- update_flow merge (lines 861-896): existing fields overridden by
non-None incoming fields, invariant-1 check, route defaulting, previous
capture, derived-field recomputation, and the new updated_at.  Fields with
non-Optional pydantic types (name, the enums, booleans, lists, dicts) are
never None in the dump, so they always overwrite. -/
def updateFlowFn (existing : Flow) (payload : FlowUpdate) (now : Nat) :
    Except String Flow :=
  if payload.source_type = .openapi ∧ payload.target_type ≠ .streamable_http then
    .error "Une source openapi doit cibler le mode streamable_http"
  else
    let route0 := mergeOpt payload.route existing.route
    let route1 := if optFalsy route0 then some payload.name else route0
    let prev0 := existing.previous
    let prev1 :=
      if existing.sse_url ≠ payload.sse_url ∨ existing.transport ≠ payload.transport then
        { prev0 with sse_url := existing.sse_url, transport := some existing.transport }
      else prev0
    let prev2 :=
      if existing.command ≠ payload.command ∨ existing.server_transport ≠ payload.server_transport then
        { prev1 with command := existing.command,
                     server_transport := some existing.server_transport }
      else prev1
    let route2 := if optFalsy route1 then some payload.name else route1
    .ok { id := existing.id, name := payload.name, route := route2,
          description := mergeOpt payload.description existing.description,
          source_type := payload.source_type, target_type := payload.target_type,
          sse_url := mergeOpt payload.sse_url existing.sse_url,
          openapi_base_url := mergeOpt payload.openapi_base_url existing.openapi_base_url,
          openapi_spec_url := mergeOpt payload.openapi_spec_url existing.openapi_spec_url,
          transport := derivedTransport payload.source_type,
          server_transport := derivedServerTransport payload.source_type payload.target_type,
          stateless := payload.stateless, auto_start := payload.auto_start,
          command := mergeOpt payload.command existing.command,
          args := payload.args, env := payload.env, headers := payload.headers,
          allow_origins := payload.allow_origins,
          created_at := existing.created_at, updated_at := now, previous := prev2 }

/-- update_flow endpoint including the 404 lookup and the store write. -/
def updateFlowEP (flows : List Flow) (flowId : String) (payload : FlowUpdate)
    (now : Nat) : List Flow × Except String Flow :=
  match flows.find? (fun g => g.id = flowId) with
  | none => (flows, .error "Flux introuvable")
  | some existing =>
    match updateFlowFn existing payload now with
    | .error e => (flows, .error e)
    | .ok f => (upsertFlow flows f, .ok f)

/-- Whether an Except result is a success. -/
def exOk {α : Type} : Except String α → Bool
  | .ok _ => true
  | .error _ => false

/- ### Concrete scenario fixtures -/

/-- The stdio-to-SSE flow from end-to-end scenario 1 of the spec, as the
create endpoint stores it. -/
def echoFlow : Flow :=
  { id := "flow-echo", name := "echo", route := some "echo",
    source_type := .stdio, target_type := .sse,
    command := some "/bin/echo", args := ["hi"],
    created_at := 1, updated_at := 1 }

/-- Environment in which every spawn succeeds (pid 42) and every probe is
ready. -/
def envAllOk : Env :=
  { spawn := fun _ => some 42, portOpen := fun _ => true,
    upstreamReady := fun _ => true, freePort := 9100, now := 5 }

/-- A stdio-source flow attached to the OpenAPI gateway port. -/
def stdioOnOpenapiFlow : Flow :=
  { id := "f2", name := "tool", route := some "tool",
    source_type := .stdio, target_type := .openapi,
    command := some "/bin/cat", created_at := 1, updated_at := 1 }

/-- A remote SSE-source flow attached to the OpenAPI gateway port, used to
show the stale-variable overwrite. -/
def remoteOnOpenapiFlow : Flow :=
  { id := "u1", name := "u", route := some "u",
    source_type := .sse, target_type := .openapi,
    sse_url := some "http://api.remote.example:1234/x",
    created_at := 1, updated_at := 1 }

/-- A create payload violating write-time invariant 2: stdio source with an
empty command. -/
def badStdioPayload : FlowCreate :=
  { name := "x", source_type := .stdio, target_type := .sse, command := none }

/-- Environment in which no binary can be spawned (FileNotFoundError). -/
def envNoBin : Env :=
  { spawn := fun _ => none, portOpen := fun _ => true,
    upstreamReady := fun _ => true, freePort := 9100, now := 3 }

/-- Environment in which spawns succeed (pid 77) but no TCP port ever
opens, so helper readiness times out. -/
def envHelperTimeout : Env :=
  { spawn := fun _ => some 77, portOpen := fun _ => false,
    upstreamReady := fun _ => true, freePort := 9100, now := 3 }

/-- An openapi-source flow targeting streamable_http (stream port 8001). -/
def openapiFlow : Flow :=
  { id := "f5", name := "oa", route := some "oa",
    source_type := .openapi, target_type := .streamable_http,
    openapi_base_url := some "http://api.example.com",
    openapi_spec_url := some "http://api.example.com/openapi.json",
    created_at := 1, updated_at := 1 }

/-- Upstream fixture flow (target sse, route "a"). -/
def upstreamA : Flow :=
  { id := "a1", name := "a", route := some "a", target_type := .sse,
    created_at := 0, updated_at := 0 }

/-- Dependent fixture flow whose sse_url points at upstreamA on the SSE
port. -/
def dependentB : Flow :=
  { id := "b1", name := "b", source_type := .sse,
    sse_url := some "http://localhost:8002/a/sse",
    target_type := .streamable_http, created_at := 0, updated_at := 0 }

/-- Existing record fixture for the update witness. -/
def updExisting : Flow :=
  { id := "e", name := "old", route := some "r0", description := some "d0",
    source_type := .sse, target_type := .sse, sse_url := some "u0",
    command := some "c0", created_at := 10, updated_at := 11 }

/-- Update payload fixture: overwrites sse_url, leaves description and
command unset. -/
def updPayload : FlowUpdate :=
  { name := "new", sse_url := some "u1" }

/-- The config document the supervisor writes for the echo flow on port
8002. -/
def echoDoc : ConfigDoc :=
  ConfigDoc.proxy "http://0.0.0.0:8002" ":8002" "mcp-proxy-sse" "sse"
    [("echo", [("command", .pstr "/bin/echo"), ("args", .plist ["hi"])])]

/-- The helper ProcessInfo registered for openapiFlow under
envHelperTimeout. -/
def f5HelperInfo : ProcInfo :=
  { label := "openapi-f5", flow_ids := ["f5"], pid := 77, started_at := 3,
    command := helperCmd openapiFlow 9100, port := some 9100,
    mode := "openapi-helper" }

end MPS

namespace MPS

/- ### C1: write-time validation -/

/-- C1 counterexample.  The claim says every create_flow call whose record
violates one of the six write-time invariants is rejected and nothing is
written.  `badStdioPayload` has source_type = stdio and an empty command
(invariant 2), yet create_flow accepts it and writes the record to the
store: only invariant 1 is checked at write time (app.py lines 837-838);
the command/URL checks live in _build_command, which create/update never
call. -/
theorem C1_counterexample :
    exOk (createFlowEP [] badStdioPayload "gid" 7).2 = true ∧
    (createFlowEP [] badStdioPayload "gid" 7).1 ≠ [] := by
  constructor
  · rfl
  · decide

/-- C1 (amended): create_flow and update_flow validate exactly write-time
invariant 1 — a record whose source_type is openapi and whose target_type
is not streamable_http is rejected with a validation error and the store is
left unchanged; every other record (including ones violating the
command/URL invariants 2-5) is accepted and written. -/
theorem C1_amended_write_validation
    (flows : List Flow) (payload : FlowCreate) (upayload : FlowUpdate)
    (genId fid : String) (now : Nat) :
    (exOk (createFlowEP flows payload genId now).2 = true ↔
      ¬(payload.source_type = .openapi ∧ payload.target_type ≠ .streamable_http)) ∧
    (payload.source_type = .openapi → payload.target_type ≠ .streamable_http →
      createFlowEP flows payload genId now =
        (flows, .error "Une source openapi doit cibler le mode streamable_http")) ∧
    (∀ existing, flows.find? (fun g => g.id = fid) = some existing →
      ((exOk (updateFlowEP flows fid upayload now).2 = true ↔
        ¬(upayload.source_type = .openapi ∧ upayload.target_type ≠ .streamable_http)) ∧
       (upayload.source_type = .openapi → upayload.target_type ≠ .streamable_http →
        updateFlowEP flows fid upayload now =
          (flows, .error "Une source openapi doit cibler le mode streamable_http")))) := by
  refine ⟨?_, ?_, ?_⟩
  · unfold createFlowEP createFlow
    by_cases h : payload.source_type = .openapi ∧ payload.target_type ≠ .streamable_http
    · simp only [if_pos h]
      simp [exOk, h]
    · simp only [if_neg h]
      simp [exOk, h]
  · intro h1 h2
    unfold createFlowEP createFlow
    simp only [if_pos (And.intro h1 h2)]
  · intro existing hfind
    unfold updateFlowEP
    rw [hfind]
    unfold updateFlowFn
    by_cases h : upayload.source_type = .openapi ∧ upayload.target_type ≠ .streamable_http
    · simp only [if_pos h]
      exact ⟨by simp [exOk, h], fun _ _ => trivial⟩
    · simp only [if_neg h]
      exact ⟨by simp [exOk, h], fun h1 h2 => absurd ⟨h1, h2⟩ h⟩

/-- C1 witness: a concrete openapi-to-sse payload is rejected without a
store write. -/
theorem C1_amended_write_validation_witness :
    createFlowEP [] { name := "o", source_type := .openapi, target_type := .sse } "g" 0 =
      ([], .error "Une source openapi doit cibler le mode streamable_http") :=
  (C1_amended_write_validation [] { name := "o", source_type := .openapi, target_type := .sse }
    { name := "o" } "g" "nofid" 0).2.1 rfl (by decide)

/- ### C2: stdio entries on the OpenAPI port -/

/-- C2 code bug.  The claim (and §4.2 of the spec) says a stdio-source flow
on the OpenAPI port gets exactly a `{command, args, env}` entry with no url
or type key.  The overwrite at app.py lines 579-584 is dedented out of the
else-branch, so it runs for stdio flows too: when no earlier flow bound
`upstream_url` the restart dies with NameError (first conjunct), and
otherwise the stdio entry is replaced by `{type, url, headers}` carrying the
previous flow's stale URL (second conjunct). -/
theorem C2_stdio_entry_overwritten :
    restartPort defaultSettings [stdioOnOpenapiFlow] envAllOk 8003
        { active := [(8003, ["f2"])] } =
      ({ active := [(8003, ["f2"])], restarts := [8003] },
        .error "NameError: name upstream_url is not defined") ∧
    aget "runtime/port-8003-openapi.config.json"
        (restartPort defaultSettings [remoteOnOpenapiFlow, stdioOnOpenapiFlow] envAllOk 8003
          { active := [(8003, ["u1", "f2"])] }).1.files =
      some (ConfigDoc.openapi
        [("u", [("type", .pstr "sse"), ("url", .pstr "http://api.remote.example:1234/x")]),
         ("tool", [("type", .pstr "sse"), ("url", .pstr "http://api.remote.example:1234/x")])]) := by
  exact ⟨rfl, rfl⟩

/- ### C3: end-to-end stdio-to-SSE scenario -/

/-- C3 counterexample.  The claim expects the written config to contain
`mcpServers.echo = {command:"/bin/echo", args:["hi"], env:{}}`, but the
key-stripping rule removes the empty env dict, so the emitted entry has no
env key at all and differs from the claimed one. -/
theorem C3_counterexample :
    aget "runtime/port-8002.config.json"
        (startFlow defaultSettings [echoFlow] envAllOk echoFlow {}).1.files =
      some (ConfigDoc.proxy "http://0.0.0.0:8002" ":8002" "mcp-proxy-sse" "sse"
        [("echo", [("command", .pstr "/bin/echo"), ("args", .plist ["hi"])])]) ∧
    ([("command", PyVal.pstr "/bin/echo"), ("args", PyVal.plist ["hi"])] : Entry) ≠
      [("command", PyVal.pstr "/bin/echo"), ("args", PyVal.plist ["hi"]),
       ("env", PyVal.pdict [])] := by
  exact ⟨rfl, by decide⟩

/-- C3 (amended): starting the echo flow spawns a child with argv
`[mcp-proxy, -config, runtime/port-8002.config.json]`, writes a config with
mcpProxy.addr = ":8002", mcpProxy.type = "sse" and
mcpServers.echo = {command:"/bin/echo", args:["hi"]} (the empty env dict is
stripped by the serializer rule), and the flow state then reports
running = true. -/
theorem C3_amended_echo_scenario :
    startFlow defaultSettings [echoFlow] envAllOk echoFlow {} =
      ({ active := [(8002, ["flow-echo"])],
         processes := [(8002,
           { label := "port-8002", flow_ids := ["flow-echo"], pid := 42,
             started_at := 5,
             command := ["mcp-proxy", "-config", "runtime/port-8002.config.json"],
             port := some 8002, mode := "sse" })],
         files := [("runtime/port-8002.config.json",
           ConfigDoc.proxy "http://0.0.0.0:8002" ":8002" "mcp-proxy-sse" "sse"
             [("echo", [("command", .pstr "/bin/echo"), ("args", .plist ["hi"])])])],
         events := [{ etype := "flow_started", flowId := "port-8002" }],
         restarts := [8002] },
       .ok { running := true, pid := some 42, started_at := some 5,
             port := some 8002,
             command := ["mcp-proxy", "-config", "runtime/port-8002.config.json"] }) := by
  rfl

/- ### C7: event broadcaster -/

/-- The broadcast for-loop keeps exactly the non-full queues, in order,
appending the payload to each. -/
theorem broadcastLoop_characterization {α : Type} (p : α) :
    ∀ ls : List (List α), broadcastLoop p ls =
      (ls.filter (fun q => q.length < queueCap)).map (fun q => q ++ [p])
  | [] => rfl
  | q :: rest => by
    by_cases h : q.length < queueCap
    · simp [broadcastLoop, h, broadcastLoop_characterization p rest]
    · simp [broadcastLoop, h, broadcastLoop_characterization p rest]

/-- A subscriber whose queue never fills receives every broadcast payload,
appended in call order. -/
theorem broadcastAll_delivery {α : Type} :
    ∀ (ps : List α) (ls : List (List α)) (q : List α),
      q ∈ ls → q.length + ps.length ≤ queueCap →
      (q ++ ps) ∈ broadcastAll ps ls
  | [], ls, q, hq, _ => by simpa [broadcastAll] using hq
  | p :: ps, ls, q, hq, hlen => by
    have hlt : q.length < queueCap := by
      simp only [List.length_cons] at hlen
      omega
    have hmem : (q ++ [p]) ∈ broadcastLoop p ls := by
      rw [broadcastLoop_characterization]
      exact List.mem_map_of_mem _ (List.mem_filter.mpr ⟨hq, by simpa using hlt⟩)
    have hrec := broadcastAll_delivery ps (broadcastLoop p ls) (q ++ [p]) hmem
      (by simp only [List.length_append, List.length_singleton]
          simp only [List.length_cons] at hlen
          omega)
    have hfold : broadcastAll (p :: ps) ls = broadcastAll ps (broadcastLoop p ls) := rfl
    rw [hfold]
    simpa [List.append_assoc] using hrec

/-- C7: every registered subscriber queue is a fresh queue bounded by
`queueCap = 100`; broadcast is a total function of the listener list (it
never blocks); it keeps exactly the subscribers whose queue is below
capacity, appending the payload to each in registry order, and removes the
full ones from the registry so they receive nothing further; and a
subscriber that stays under capacity receives the payloads of successive
broadcast calls in call order. -/
theorem C7_broadcaster {α : Type} (p : α) (ps : List α) (ls : List (List α))
    (q : List α) :
    (queueCap = 100 ∧ registerListener ls = ls ++ [[]]) ∧
    (broadcastLoop p ls =
      (ls.filter (fun r => r.length < queueCap)).map (fun r => r ++ [p])) ∧
    (∀ r ∈ broadcastLoop p ls, ∃ q₀ ∈ ls, q₀.length < queueCap ∧ r = q₀ ++ [p]) ∧
    (q ∈ ls → q.length + ps.length ≤ queueCap → (q ++ ps) ∈ broadcastAll ps ls) := by
  refine ⟨⟨rfl, rfl⟩, broadcastLoop_characterization p ls, ?_, ?_⟩
  · intro r hr
    rw [broadcastLoop_characterization] at hr
    obtain ⟨q₀, hq₀, rfl⟩ := List.mem_map.mp hr
    have := List.mem_filter.mp hq₀
    exact ⟨q₀, this.1, by simpa using this.2, rfl⟩
  · intro hq hlen
    exact broadcastAll_delivery ps ls q hq hlen

/-- C7 witness: with one full queue (100 entries) and one fresh queue, a
broadcast drops the full subscriber and delivers two further payloads to
the fresh one in order. -/
theorem C7_broadcaster_witness :
    (([0] ++ [1, 2] : List Nat)) ∈
      broadcastAll [1, 2] [List.replicate 100 9, [0]] := by
  have h := C7_broadcaster (α := Nat) 1 [1, 2] [List.replicate 100 9, [0]] [0]
  exact h.2.2.2 (by decide) (by decide)

/- ### Association-list lemmas -/

/-- Assignment makes the key readable. -/
theorem aget_aset_self {κ β : Type} [DecidableEq κ] (k : κ) (v : β) :
    ∀ l : List (κ × β), aget k (aset k v l) = some v
  | [] => by simp [aget, aset]
  | (a, b) :: rest => by
    by_cases h : a = k
    · simp [aset, aget, h]
    · simp [aset, aget, h, aget_aset_self k v rest]

/-- Assignment leaves other keys unchanged. -/
theorem aget_aset_ne {κ β : Type} [DecidableEq κ] (k p : κ) (v : β) (hne : p ≠ k) :
    ∀ l : List (κ × β), aget p (aset k v l) = aget p l
  | [] => by
    have hkp : ¬ k = p := fun h => hne h.symm
    simp [aget, aset, hkp]
  | (a, b) :: rest => by
    have hkp : ¬ k = p := fun h => hne h.symm
    by_cases h : a = k
    · subst h
      simp [aset, aget, hkp]
    · by_cases hap : a = p
      · simp [aset, aget, h, hap, hne]
      · simp [aset, aget, h, hap, aget_aset_ne k p v hne rest]

/-- A successful lookup after assignment is the new pair or an old one. -/
theorem aget_aset_cases {κ β : Type} [DecidableEq κ] (k p : κ) (v i : β)
    {l : List (κ × β)} (h : aget p (aset k v l) = some i) :
    (p = k ∧ i = v) ∨ aget p l = some i := by
  by_cases hpk : p = k
  · subst hpk
    rw [aget_aset_self] at h
    exact Or.inl ⟨rfl, (Option.some.inj h).symm⟩
  · rw [aget_aset_ne k p v hpk] at h
    exact Or.inr h

/-- Deletion removes the key. -/
theorem aget_aerase_self {κ β : Type} [DecidableEq κ] (k : κ) :
    ∀ l : List (κ × β), aget k (aerase k l) = none
  | [] => rfl
  | (a, b) :: rest => by
    by_cases h : a = k
    · simp [aerase, h, aget_aerase_self k rest]
    · have hne : ¬ a = k := h
      simp [aerase, hne, aget, aget_aerase_self k rest]

/-- Deletion preserves absence of any key. -/
theorem aget_aerase_none {κ β : Type} [DecidableEq κ] (k p : κ) :
    ∀ l : List (κ × β), aget p l = none → aget p (aerase k l) = none
  | [], _ => rfl
  | (a, b) :: rest, h => by
    have hne : ¬ a = p := by
      intro hap
      simp [aget, hap] at h
    have hrest : aget p rest = none := by
      simpa [aget, hne] using h
    by_cases hak : a = k
    · simp [aerase, hak, aget_aerase_none k p rest hrest]
    · simp [aerase, hak, aget, hne, aget_aerase_none k p rest hrest]

/-- A successful lookup after deletion was already there. -/
theorem aget_aerase_some {κ β : Type} [DecidableEq κ] (k p : κ) (i : β) :
    ∀ l : List (κ × β), aget p (aerase k l) = some i → aget p l = some i
  | [], h => by simp [aerase, aget] at h
  | (a, b) :: rest, h => by
    by_cases hak : a = k
    · rw [show aerase k ((a, b) :: rest) = aerase k rest by simp [aerase, hak]] at h
      have hrest := aget_aerase_some k p i rest h
      have hne : ¬ a = p := by
        intro hap
        subst hap
        subst hak
        rw [aget_aerase_self] at h
        exact absurd h (by simp)
      simpa [aget, hne] using hrest
    · rw [show aerase k ((a, b) :: rest) = (a, b) :: aerase k rest by simp [aerase, hak]] at h
      by_cases hap : a = p
      · simpa [aget, hap] using h
      · have := aget_aerase_some k p i rest (by simpa [aget, hap] using h)
        simpa [aget, hap] using this

/- ### State-preservation lemmas for the supervisor operations -/

/-- stopMany touches only the helper registry. -/
theorem stopMany_fields :
    ∀ (fids : List String) (st : SupState),
      (stopMany fids st).active = st.active ∧
      (stopMany fids st).processes = st.processes ∧
      (stopMany fids st).files = st.files ∧
      (stopMany fids st).events = st.events ∧
      (stopMany fids st).warns = st.warns ∧
      (stopMany fids st).restarts = st.restarts
  | [], _ => ⟨rfl, rfl, rfl, rfl, rfl, rfl⟩
  | f :: rest, st => stopMany_fields rest (stopOpenapiHelper f st)

/-- stopMany preserves the absence of a helper. -/
theorem stopMany_helpers_none :
    ∀ (fids : List String) (st : SupState) (fid : String),
      aget fid st.helpers = none → aget fid (stopMany fids st).helpers = none
  | [], _, _, h => h
  | f :: rest, st, fid, h =>
    stopMany_helpers_none rest (stopOpenapiHelper f st) fid
      (aget_aerase_none f fid st.helpers h)

/-- A helper surviving stopMany was registered before. -/
theorem stopMany_helpers_some :
    ∀ (fids : List String) (st : SupState) (fid : String) (i : ProcInfo),
      aget fid (stopMany fids st).helpers = some i → aget fid st.helpers = some i
  | [], _, _, _, h => h
  | f :: rest, st, fid, i, h =>
    aget_aerase_some f fid i st.helpers
      (stopMany_helpers_some rest (stopOpenapiHelper f st) fid i h)

/-- terminatePort touches only the process table and the helper registry. -/
theorem terminatePort_fields (port : Nat) (st : SupState) :
    (terminatePort port st).active = st.active ∧
    (terminatePort port st).files = st.files ∧
    (terminatePort port st).events = st.events ∧
    (terminatePort port st).warns = st.warns ∧
    (terminatePort port st).restarts = st.restarts := by
  unfold terminatePort
  rcases hg : aget port st.processes with _ | info
  · exact ⟨rfl, rfl, rfl, rfl, rfl⟩
  · by_cases he : info.exit_code = none
    · simp only [he, if_pos]
      have h := stopMany_fields info.flow_ids st
      exact ⟨h.1, h.2.2.1, h.2.2.2.1, h.2.2.2.2.1, h.2.2.2.2.2⟩
    · simp only [he, if_neg]
      exact ⟨rfl, rfl, rfl, rfl, rfl⟩

/-- After terminatePort the port has no recorded child. -/
theorem terminatePort_processes_self (port : Nat) (st : SupState) :
    aget port (terminatePort port st).processes = none := by
  unfold terminatePort
  exact aget_aerase_self port _

/-- A child surviving terminatePort was recorded before. -/
theorem terminatePort_processes_some (port p : Nat) (st : SupState) (i : ProcInfo)
    (h : aget p (terminatePort port st).processes = some i) :
    aget p st.processes = some i := by
  unfold terminatePort at h
  rcases hg : aget port st.processes with _ | info
  · rw [hg] at h
    exact aget_aerase_some port p i st.processes h
  · rw [hg] at h
    by_cases he : info.exit_code = none
    · simp only [he, if_pos] at h
      have h2 := aget_aerase_some port p i _ h
      rw [(stopMany_fields info.flow_ids st).2.1] at h2
      exact h2
    · simp only [he, if_neg] at h
      exact aget_aerase_some port p i st.processes h

/-- terminatePort preserves the absence of a helper. -/
theorem terminatePort_helpers_none (port : Nat) (st : SupState) (fid : String)
    (h : aget fid st.helpers = none) :
    aget fid (terminatePort port st).helpers = none := by
  unfold terminatePort
  rcases hg : aget port st.processes with _ | info
  · exact h
  · by_cases he : info.exit_code = none
    · simp only [he, if_pos]
      exact stopMany_helpers_none info.flow_ids st fid h
    · simp only [he, if_neg]
      exact h

/-- A helper surviving terminatePort was registered before. -/
theorem terminatePort_helpers_some (port : Nat) (st : SupState) (fid : String)
    (i : ProcInfo) (h : aget fid (terminatePort port st).helpers = some i) :
    aget fid st.helpers = some i := by
  unfold terminatePort at h
  rcases hg : aget port st.processes with _ | info
  · rw [hg] at h
    exact h
  · rw [hg] at h
    by_cases he : info.exit_code = none
    · simp only [he, if_pos] at h
      exact stopMany_helpers_some info.flow_ids st fid i h
    · simp only [he, if_neg] at h
      exact h

/-- ensureSpawnHelper touches only the helper registry. -/
theorem ensureSpawnHelper_fields (env : Env) (flow : Flow) (st : SupState) :
    ((ensureSpawnHelper env flow st).1).active = st.active ∧
    ((ensureSpawnHelper env flow st).1).processes = st.processes ∧
    ((ensureSpawnHelper env flow st).1).files = st.files ∧
    ((ensureSpawnHelper env flow st).1).events = st.events ∧
    ((ensureSpawnHelper env flow st).1).warns = st.warns ∧
    ((ensureSpawnHelper env flow st).1).restarts = st.restarts := by
  unfold ensureSpawnHelper
  dsimp only
  repeat' split
  all_goals exact ⟨rfl, rfl, rfl, rfl, rfl, rfl⟩

/-- ensureOpenapiHelper touches only the helper registry. -/
theorem ensureOpenapiHelper_fields (env : Env) (flow : Flow) (st : SupState) :
    ((ensureOpenapiHelper env flow st).1).active = st.active ∧
    ((ensureOpenapiHelper env flow st).1).processes = st.processes ∧
    ((ensureOpenapiHelper env flow st).1).files = st.files ∧
    ((ensureOpenapiHelper env flow st).1).events = st.events ∧
    ((ensureOpenapiHelper env flow st).1).warns = st.warns ∧
    ((ensureOpenapiHelper env flow st).1).restarts = st.restarts := by
  unfold ensureOpenapiHelper
  split
  · exact ⟨rfl, rfl, rfl, rfl, rfl, rfl⟩
  · split
    · split
      · exact ⟨rfl, rfl, rfl, rfl, rfl, rfl⟩
      · exact ensureSpawnHelper_fields env flow st
    · exact ensureSpawnHelper_fields env flow st

/-- A helper known after ensureSpawnHelper predates the call or carries the
openapi- label of this flow. -/
theorem ensureSpawnHelper_helpers_some (env : Env) (flow : Flow) (st : SupState)
    (fid : String) (i : ProcInfo)
    (h : aget fid ((ensureSpawnHelper env flow st).1).helpers = some i) :
    aget fid st.helpers = some i ∨ i.label = helperLabel fid := by
  unfold ensureSpawnHelper at h
  dsimp only at h
  split at h
  · exact Or.inl h
  · split at h
    all_goals {
      rcases aget_aset_cases flow.id fid _ i h with ⟨hfid, hi⟩ | hold
      · subst hfid
        exact Or.inr (by rw [hi])
      · exact Or.inl hold
    }

/-- A helper known after ensureOpenapiHelper either predates the call or is
the helper of this flow, labelled openapi-(flow id). -/
theorem ensureOpenapiHelper_helpers_some (env : Env) (flow : Flow) (st : SupState)
    (fid : String) (i : ProcInfo)
    (h : aget fid ((ensureOpenapiHelper env flow st).1).helpers = some i) :
    aget fid st.helpers = some i ∨ i.label = helperLabel fid := by
  unfold ensureOpenapiHelper at h
  split at h
  · exact Or.inl h
  · split at h
    · split at h
      · exact Or.inl h
      · exact ensureSpawnHelper_helpers_some env flow st fid i h
    · exact ensureSpawnHelper_helpers_some env flow st fid i h

/-- buildProxyServers touches only the helper registry. -/
theorem buildProxyServers_fields (env : Env) :
    ∀ (fl : List Flow) (servers : List (String × Entry)) (st : SupState),
      ((buildProxyServers env fl servers st).1).active = st.active ∧
      ((buildProxyServers env fl servers st).1).processes = st.processes ∧
      ((buildProxyServers env fl servers st).1).files = st.files ∧
      ((buildProxyServers env fl servers st).1).events = st.events ∧
      ((buildProxyServers env fl servers st).1).warns = st.warns ∧
      ((buildProxyServers env fl servers st).1).restarts = st.restarts
  | [], _, _ => ⟨rfl, rfl, rfl, rfl, rfl, rfl⟩
  | flow :: rest, servers, st => by
    unfold buildProxyServers
    split
    · exact buildProxyServers_fields env rest _ st
    · rcases hens : ensureOpenapiHelper env flow st with ⟨st₁, res⟩
      have hfields := ensureOpenapiHelper_fields env flow st
      rw [hens] at hfields
      by_cases hsrc : flow.source_type = .openapi
      · simp only [if_pos hsrc, hens]
        rcases res with e | u
        · exact hfields
        · exact ⟨((buildProxyServers_fields env rest _ st₁).1).trans hfields.1,
            ((buildProxyServers_fields env rest _ st₁).2.1).trans hfields.2.1,
            ((buildProxyServers_fields env rest _ st₁).2.2.1).trans hfields.2.2.1,
            ((buildProxyServers_fields env rest _ st₁).2.2.2.1).trans hfields.2.2.2.1,
            ((buildProxyServers_fields env rest _ st₁).2.2.2.2.1).trans hfields.2.2.2.2.1,
            ((buildProxyServers_fields env rest _ st₁).2.2.2.2.2).trans hfields.2.2.2.2.2⟩
      · simp only [if_neg hsrc]
        exact buildProxyServers_fields env rest _ st

/-- A helper known after buildProxyServers either predates the call or
carries its flow's openapi- label. -/
theorem buildProxyServers_helpers_some (env : Env) :
    ∀ (fl : List Flow) (servers : List (String × Entry)) (st : SupState)
      (fid : String) (i : ProcInfo),
      aget fid ((buildProxyServers env fl servers st).1).helpers = some i →
      aget fid st.helpers = some i ∨ i.label = helperLabel fid
  | [], _, _, _, _, h => Or.inl h
  | flow :: rest, servers, st, fid, i, h => by
    unfold buildProxyServers at h
    split at h
    · exact buildProxyServers_helpers_some env rest _ st fid i h
    · rcases hens : ensureOpenapiHelper env flow st with ⟨st₁, res⟩
      by_cases hsrc : flow.source_type = .openapi
      · rw [if_pos hsrc, hens] at h
        rcases res with e | u
        · rcases ensureOpenapiHelper_helpers_some env flow st fid i
            (by rw [hens]; exact h) with hold | hl
          · exact Or.inl hold
          · exact Or.inr hl
        · rcases buildProxyServers_helpers_some env rest _ st₁ fid i h with hold | hl
          · rcases ensureOpenapiHelper_helpers_some env flow st fid i
              (by rw [hens]; exact hold) with hold2 | hl2
            · exact Or.inl hold2
            · exact Or.inr hl2
          · exact Or.inr hl
      · rw [if_neg hsrc] at h
        exact buildProxyServers_helpers_some env rest _ st fid i h

/-- buildOpenapiServers touches only the warning log. -/
theorem buildOpenapiServers_fields (settings : Settings) (env : Env) :
    ∀ (fl : List Flow) (servers : List (String × Entry)) (upVar : Option String)
      (st : SupState),
      ((buildOpenapiServers settings env fl servers upVar st).1).active = st.active ∧
      ((buildOpenapiServers settings env fl servers upVar st).1).processes = st.processes ∧
      ((buildOpenapiServers settings env fl servers upVar st).1).files = st.files ∧
      ((buildOpenapiServers settings env fl servers upVar st).1).events = st.events ∧
      ((buildOpenapiServers settings env fl servers upVar st).1).helpers = st.helpers ∧
      ((buildOpenapiServers settings env fl servers upVar st).1).restarts = st.restarts
  | [], _, _, _ => ⟨rfl, rfl, rfl, rfl, rfl, rfl⟩
  | flow :: rest, servers, upVar, st => by
    unfold buildOpenapiServers
    dsimp only
    repeat' split
    all_goals
      first
        | exact ⟨rfl, rfl, rfl, rfl, rfl, rfl⟩
        | exact buildOpenapiServers_fields settings env rest _ _ _

/-- spawnGateway touches only the process table and the event trace, and
both the recorded ProcessInfo and the flow_started event carry the
port-(P) label. -/
theorem spawnGateway_fields (env : Env) (port : Nat) (ids : List String)
    (mode : String) (cmd : List String) (st : SupState) :
    ((spawnGateway env port ids mode cmd st).1).active = st.active ∧
    ((spawnGateway env port ids mode cmd st).1).files = st.files ∧
    ((spawnGateway env port ids mode cmd st).1).warns = st.warns ∧
    ((spawnGateway env port ids mode cmd st).1).helpers = st.helpers ∧
    ((spawnGateway env port ids mode cmd st).1).restarts = st.restarts := by
  unfold spawnGateway
  split
  all_goals exact ⟨rfl, rfl, rfl, rfl, rfl⟩

/-- Events after spawnGateway: unchanged on spawn failure, or the old trace
plus one flow_started labelled port-(P). -/
theorem spawnGateway_events (env : Env) (port : Nat) (ids : List String)
    (mode : String) (cmd : List String) (st : SupState) :
    ((spawnGateway env port ids mode cmd st).1).events = st.events ∨
    ((spawnGateway env port ids mode cmd st).1).events =
      st.events ++ [{ etype := "flow_started", flowId := portLabel port }] := by
  unfold spawnGateway
  split
  · exact Or.inl rfl
  · exact Or.inr rfl

/-- A child recorded after spawnGateway predates the call or is the new
gateway child labelled with its port. -/
theorem spawnGateway_processes_some (env : Env) (port : Nat) (ids : List String)
    (mode : String) (cmd : List String) (st : SupState) (p : Nat) (i : ProcInfo)
    (h : aget p ((spawnGateway env port ids mode cmd st).1).processes = some i) :
    aget p st.processes = some i ∨ i.label = portLabel p := by
  unfold spawnGateway at h
  split at h
  · exact Or.inl h
  · rcases aget_aset_cases port p _ i h with ⟨hp, hi⟩ | hold
    · subst hp
      exact Or.inr (by rw [hi])
    · exact Or.inl hold

/-- Fields of the state returned by buildOpenapiServers, keyed on the call
equation. -/
theorem buildOpenapiServers_fields_of {settings : Settings} {env : Env}
    {fl : List Flow} {servers : List (String × Entry)} {upVar : Option String}
    {st st₂ : SupState} {r : Except String (List (String × Entry))}
    (heq : buildOpenapiServers settings env fl servers upVar st = (st₂, r)) :
    st₂.active = st.active ∧ st₂.processes = st.processes ∧
    st₂.files = st.files ∧ st₂.events = st.events ∧
    st₂.helpers = st.helpers ∧ st₂.restarts = st.restarts := by
  have h := buildOpenapiServers_fields settings env fl servers upVar st
  rw [heq] at h
  exact h

/-- Fields of the state returned by buildProxyServers, keyed on the call
equation. -/
theorem buildProxyServers_fields_of {env : Env} {fl : List Flow}
    {servers : List (String × Entry)} {st st₂ : SupState}
    {r : Except String (List (String × Entry))}
    (heq : buildProxyServers env fl servers st = (st₂, r)) :
    st₂.active = st.active ∧ st₂.processes = st.processes ∧
    st₂.files = st.files ∧ st₂.events = st.events ∧
    st₂.warns = st.warns ∧ st₂.restarts = st.restarts := by
  have h := buildProxyServers_fields env fl servers st
  rw [heq] at h
  exact h

/-- Any event present after spawnGateway predates it or is its flow_started
event. -/
theorem spawnGateway_events_mem {env : Env} {port : Nat} {ids : List String}
    {mode : String} {cmd : List String} {st : SupState} {ev : Event}
    (h : ev ∈ ((spawnGateway env port ids mode cmd st).1).events) :
    ev ∈ st.events ∨ ev = { etype := "flow_started", flowId := portLabel port } := by
  unfold spawnGateway at h
  split at h
  · exact Or.inl h
  · rcases List.mem_append.mp h with h2 | h2
    · exact Or.inl h2
    · exact Or.inr (List.mem_singleton.mp h2)

/-- A child recorded after spawnGateway predates the call or is the new
gateway child labelled with its port (hypothesis-keyed form). -/
theorem spawnGateway_processes_some_of {env : Env} {port : Nat}
    {ids : List String} {mode : String} {cmd : List String} {st : SupState}
    {p : Nat} {i : ProcInfo}
    (h : aget p ((spawnGateway env port ids mode cmd st).1).processes = some i) :
    aget p st.processes = some i ∨ i.label = portLabel p := by
  unfold spawnGateway at h
  split at h
  · exact Or.inl h
  · rcases aget_aset_cases port p _ i h with ⟨hp, hi⟩ | hold
    · subst hp
      exact Or.inr (by rw [hi])
    · exact Or.inl hold

/-- restartPort never changes the port membership map. -/
theorem restartPort_active (settings : Settings) (flows : List Flow) (env : Env)
    (port : Nat) (st : SupState) :
    ((restartPort settings flows env port st).1).active = st.active := by
  unfold restartPort
  dsimp only
  split
  · exact (terminatePort_fields port st).1
  · split
    · split
      case _ st₂ e heq =>
        exact ((buildOpenapiServers_fields_of heq).1).trans ((terminatePort_fields port st).1)
      case _ st₂ servers heq =>
        exact ((spawnGateway_fields env port _ _ _ _).1).trans
          (((buildOpenapiServers_fields_of heq).1).trans ((terminatePort_fields port st).1))
    · split
      case _ st₂ e heq =>
        exact ((buildProxyServers_fields_of heq).1).trans ((terminatePort_fields port st).1)
      case _ st₂ servers heq =>
        exact ((spawnGateway_fields env port _ _ _ _).1).trans
          (((buildProxyServers_fields_of heq).1).trans ((terminatePort_fields port st).1))

/-- Every event present after restartPort either predates the call or is
the flow_started event labelled with the port. -/
theorem restartPort_events_mem (settings : Settings) (flows : List Flow)
    (env : Env) (port : Nat) (st : SupState) (ev : Event)
    (h : ev ∈ ((restartPort settings flows env port st).1).events) :
    ev ∈ st.events ∨ (ev.etype = "flow_started" ∧ ev.flowId = portLabel port) := by
  unfold restartPort at h
  dsimp only at h
  split at h
  · rw [(terminatePort_fields port st).2.2.1] at h
    exact Or.inl h
  · split at h
    · split at h
      case _ st₂ e heq =>
        rw [show st₂.events = st.events from
          ((buildOpenapiServers_fields_of heq).2.2.2.1).trans
            ((terminatePort_fields port st).2.2.1)] at h
        exact Or.inl h
      case _ st₂ servers heq =>
        rcases spawnGateway_events_mem h with h2 | h2
        · have h3 : ev ∈ st₂.events := h2
          rw [show st₂.events = st.events from
            ((buildOpenapiServers_fields_of heq).2.2.2.1).trans
              ((terminatePort_fields port st).2.2.1)] at h3
          exact Or.inl h3
        · exact Or.inr (by rw [h2]; exact ⟨rfl, rfl⟩)
    · split at h
      case _ st₂ e heq =>
        rw [show st₂.events = st.events from
          ((buildProxyServers_fields_of heq).2.2.2.1).trans
            ((terminatePort_fields port st).2.2.1)] at h
        exact Or.inl h
      case _ st₂ servers heq =>
        rcases spawnGateway_events_mem h with h2 | h2
        · have h3 : ev ∈ st₂.events := h2
          rw [show st₂.events = st.events from
            ((buildProxyServers_fields_of heq).2.2.2.1).trans
              ((terminatePort_fields port st).2.2.1)] at h3
          exact Or.inl h3
        · exact Or.inr (by rw [h2]; exact ⟨rfl, rfl⟩)

/-- Every child recorded after restartPort either predates the call or is a
gateway child labelled port-(its port). -/
theorem restartPort_processes_some (settings : Settings) (flows : List Flow)
    (env : Env) (port : Nat) (st : SupState) (p : Nat) (i : ProcInfo)
    (h : aget p ((restartPort settings flows env port st).1).processes = some i) :
    aget p st.processes = some i ∨ i.label = portLabel p := by
  unfold restartPort at h
  dsimp only at h
  split at h
  · exact Or.inl (terminatePort_processes_some port p st i h)
  · split at h
    · split at h
      case _ st₂ e heq =>
        rw [show st₂.processes = (terminatePort port st).processes from
          (buildOpenapiServers_fields_of heq).2.1] at h
        exact Or.inl (terminatePort_processes_some port p st i h)
      case _ st₂ servers heq =>
        rcases spawnGateway_processes_some_of h with h2 | h2
        · have h3 : aget p st₂.processes = some i := h2
          rw [show st₂.processes = (terminatePort port st).processes from
            (buildOpenapiServers_fields_of heq).2.1] at h3
          exact Or.inl (terminatePort_processes_some port p st i h3)
        · exact Or.inr h2
    · split at h
      case _ st₂ e heq =>
        rw [show st₂.processes = (terminatePort port st).processes from
          (buildProxyServers_fields_of heq).2.1] at h
        exact Or.inl (terminatePort_processes_some port p st i h)
      case _ st₂ servers heq =>
        rcases spawnGateway_processes_some_of h with h2 | h2
        · have h3 : aget p st₂.processes = some i := h2
          rw [show st₂.processes = (terminatePort port st).processes from
            (buildProxyServers_fields_of heq).2.1] at h3
          exact Or.inl (terminatePort_processes_some port p st i h3)
        · exact Or.inr h2

/-- Every helper registered after restartPort either predates the call or
carries the openapi- label of its flow. -/
theorem restartPort_helpers_some (settings : Settings) (flows : List Flow)
    (env : Env) (port : Nat) (st : SupState) (fid : String) (i : ProcInfo)
    (h : aget fid ((restartPort settings flows env port st).1).helpers = some i) :
    aget fid st.helpers = some i ∨ i.label = helperLabel fid := by
  unfold restartPort at h
  dsimp only at h
  split at h
  · exact Or.inl (terminatePort_helpers_some port st fid i h)
  · split at h
    · split at h
      case _ st₂ e heq =>
        rw [show st₂.helpers = (terminatePort port st).helpers from
          (buildOpenapiServers_fields_of heq).2.2.2.2.1] at h
        exact Or.inl (terminatePort_helpers_some port st fid i h)
      case _ st₂ servers heq =>
        have h3 : aget fid st₂.helpers = some i := by
          rw [show ((spawnGateway env port _ "openapi" _
            { st₂ with files := aset _ (ConfigDoc.openapi servers) st₂.files }).1).helpers
              = st₂.helpers from (spawnGateway_fields env port _ _ _ _).2.2.2.1] at h
          exact h
        rw [show st₂.helpers = (terminatePort port st).helpers from
          (buildOpenapiServers_fields_of heq).2.2.2.2.1] at h3
        exact Or.inl (terminatePort_helpers_some port st fid i h3)
    · split at h
      case _ st₂ e heq =>
        rcases buildProxyServers_helpers_some env _ _ _ fid i
          (by rw [heq]; exact h) with h2 | h2
        · exact Or.inl (terminatePort_helpers_some port st fid i h2)
        · exact Or.inr h2
      case _ st₂ servers heq =>
        have h3 : aget fid st₂.helpers = some i := by
          rw [show ((spawnGateway env port _ _ _
            { st₂ with files := aset _ _ st₂.files }).1).helpers
              = st₂.helpers from (spawnGateway_fields env port _ _ _ _).2.2.2.1] at h
          exact h
        rcases buildProxyServers_helpers_some env _ _ _ fid i
          (by rw [heq]; exact h3) with h2 | h2
        · exact Or.inl (terminatePort_helpers_some port st fid i h2)
        · exact Or.inr h2

/- ### C6: dependency resolver -/

/-- When `parsed.port` cannot be read the numeric port is absent. -/
theorem portNat_none_of_not_readable (u : ParsedUrl)
    (h : u.portReadable = false) : u.portNat = none := by
  unfold ParsedUrl.portReadable at h
  unfold ParsedUrl.portNat
  cases hr : u.portRaw with
  | none => rfl
  | some s =>
    rw [hr] at h
    have h2 : (parsePortStr s).isSome = false := h
    show parsePortStr s = none
    cases hp : parsePortStr s with
    | none => rfl
    | some n => rw [hp] at h2; simp at h2

/-- Unfolding of the resolver for a non-stdio flow with a non-empty URL. -/
theorem resolveDependency_unfold (settings : Settings) (flows : List Flow)
    (flow : Flow) (u : String) (hs : flow.source_type ≠ .stdio)
    (hu : flow.sse_url = some u) (hne : u ≠ "") :
    resolveDependency settings flows flow =
      (if ¬ (localHosts settings).contains (parseUrl u).host then .ok none
       else if ¬ (parseUrl u).portReadable then
         .error "ValueError: invalid literal for port"
       else if (parseUrl u).portNat.getD 0 = 0 ∨ (urlPathParts u).length < 2 then
         .ok none
       else if (parseUrl u).portNat.getD 0 = settings.openapi_port then .ok none
       else .ok (findByRoute flows ((urlPathParts u).getD 0 "")
         (some (endpointTargetType u)))) := by
  unfold resolveDependency
  rw [if_neg hs, hu]
  have hfalse : optFalsy (some u) = false := by simp [optFalsy, hne]
  simp only [hfalse, Bool.false_eq_true, if_false, Option.getD_some]

/-- C6: for a flow with source_type distinct from stdio and a non-empty
sse_url, the resolver yields an upstream flow exactly when the URL's
hostname lies in {127.0.0.1, localhost, 0.0.0.0, settings.host,
settings.inspector_public_host}, the URL carries an explicit usable port
(urlparse treats port 0 as absent) different from the OpenAPI port, the
path has at least two non-empty segments, and the store lookup
find_by_route(first segment, streamable_http when the second segment is
"mcp" else sse) finds a flow; that found flow (the first match in store
order, matching on route-or-name) is the upstream.  In every other case no
dependency is returned. -/
theorem C6_dependency_resolution (settings : Settings) (flows : List Flow)
    (flow : Flow) (u : String) (hs : flow.source_type ≠ .stdio)
    (hu : flow.sse_url = some u) (hne : u ≠ "") (up : Flow) :
    resolveDependency settings flows flow = .ok (some up) ↔
      ((localHosts settings).contains (parseUrl u).host = true ∧
       (∃ p, (parseUrl u).portNat = some p ∧ p ≠ 0 ∧ p ≠ settings.openapi_port) ∧
       2 ≤ (urlPathParts u).length ∧
       findByRoute flows ((urlPathParts u).getD 0 "")
         (some (endpointTargetType u)) = some up) := by
  rw [resolveDependency_unfold settings flows flow u hs hu hne]
  by_cases hc : (localHosts settings).contains (parseUrl u).host = true
  · rw [if_neg (not_not_intro hc)]
    by_cases hr : (parseUrl u).portReadable = true
    · rw [if_neg (not_not_intro hr)]
      by_cases hz : (parseUrl u).portNat.getD 0 = 0 ∨ (urlPathParts u).length < 2
      · rw [if_pos hz]
        constructor
        · intro h; exact absurd (Except.ok.inj h) (by simp)
        · rintro ⟨-, ⟨p, hp, hpz, -⟩, hlen, -⟩
          rcases hz with hz | hz
          · rw [hp] at hz; exact absurd hz hpz
          · omega
      · rw [if_neg hz]
        push_neg at hz
        obtain ⟨hz0, hlen⟩ := hz
        by_cases ho : (parseUrl u).portNat.getD 0 = settings.openapi_port
        · rw [if_pos ho]
          constructor
          · intro h; exact absurd (Except.ok.inj h) (by simp)
          · rintro ⟨-, ⟨p, hp, -, hpo⟩, -, -⟩
            rw [hp] at ho; exact absurd ho hpo
        · rw [if_neg ho]
          constructor
          · intro h
            refine ⟨hc, ?_, by omega, Except.ok.inj h⟩
            cases hp : (parseUrl u).portNat with
            | none => rw [hp] at hz0; simp at hz0
            | some p =>
              rw [hp] at hz0 ho
              exact ⟨p, rfl, by simpa using hz0, by simpa using ho⟩
          · rintro ⟨-, -, -, hfind⟩
            rw [hfind]
    · rw [if_pos hr]
      constructor
      · intro h; exact absurd h (by simp)
      · rintro ⟨-, ⟨p, hp, -, -⟩, -, -⟩
        have := portNat_none_of_not_readable (parseUrl u) (by simpa using hr)
        rw [this] at hp; exact absurd hp (by simp)
  · rw [if_pos hc]
    constructor
    · intro h; exact absurd (Except.ok.inj h) (by simp)
    · rintro ⟨hc2, -⟩; exact absurd hc2 hc

/-- C6 witness: the concrete local URL http://localhost:8002/a/sse resolves
to the stored flow with route "a" and target sse. -/
theorem C6_dependency_resolution_witness :
    resolveDependency defaultSettings [upstreamA] dependentB = .ok (some upstreamA) := by
  refine (C6_dependency_resolution defaultSettings [upstreamA] dependentB
    "http://localhost:8002/a/sse" (by decide) rfl (by decide) upstreamA).mpr ?_
  refine ⟨by decide, ⟨8002, by decide, by decide, by decide⟩, by decide, ?_⟩
  decide

/- ### C9: update is a merge -/

/-- C9: update_flow merges instead of replacing — every None field of the
incoming payload keeps the existing record's value, every non-None optional
field overwrites it, the always-present fields (name, enums, booleans,
lists, maps) overwrite, id and created_at are never changed, updated_at is
set to the call time, and transport/server_transport are recomputed from
the merged source/target types (route and previous are likewise
recomputed). -/
theorem C9_update_merge (existing : Flow) (payload : FlowUpdate) (now : Nat)
    (f : Flow) (h : updateFlowFn existing payload now = .ok f) :
    f.id = existing.id ∧ f.created_at = existing.created_at ∧ f.updated_at = now ∧
    f.name = payload.name ∧ f.source_type = payload.source_type ∧
    f.target_type = payload.target_type ∧ f.args = payload.args ∧
    f.env = payload.env ∧ f.headers = payload.headers ∧
    f.allow_origins = payload.allow_origins ∧ f.stateless = payload.stateless ∧
    f.auto_start = payload.auto_start ∧
    (payload.description = none → f.description = existing.description) ∧
    (∀ v, payload.description = some v → f.description = some v) ∧
    (payload.sse_url = none → f.sse_url = existing.sse_url) ∧
    (∀ v, payload.sse_url = some v → f.sse_url = some v) ∧
    (payload.openapi_base_url = none → f.openapi_base_url = existing.openapi_base_url) ∧
    (∀ v, payload.openapi_base_url = some v → f.openapi_base_url = some v) ∧
    (payload.openapi_spec_url = none → f.openapi_spec_url = existing.openapi_spec_url) ∧
    (∀ v, payload.openapi_spec_url = some v → f.openapi_spec_url = some v) ∧
    (payload.command = none → f.command = existing.command) ∧
    (∀ v, payload.command = some v → f.command = some v) ∧
    f.transport = derivedTransport payload.source_type ∧
    f.server_transport = derivedServerTransport payload.source_type payload.target_type := by
  unfold updateFlowFn at h
  split at h
  · exact absurd h (by simp)
  · injection h with h2
    subst h2
    refine ⟨rfl, rfl, rfl, rfl, rfl, rfl, rfl, rfl, rfl, rfl, rfl, rfl,
      ?_, ?_, ?_, ?_, ?_, ?_, ?_, ?_, ?_, ?_, rfl, rfl⟩
    all_goals first
      | (intro hd; simp [mergeOpt, hd])
      | (intro v hv; simp [mergeOpt, hv])

/-- C9 witness: applying the merge to the fixtures keeps id/created_at and
the unset description/command while overwriting sse_url. -/
theorem C9_update_merge_witness :
    ∃ f, updateFlowFn updExisting updPayload 99 = .ok f ∧
      f.id = "e" ∧ f.created_at = 10 ∧ f.updated_at = 99 ∧
      f.description = some "d0" ∧ f.command = some "c0" ∧ f.sse_url = some "u1" := by
  cases hres : updateFlowFn updExisting updPayload 99 with
  | error e =>
    have hok : exOk (updateFlowFn updExisting updPayload 99) = true := by decide
    rw [hres] at hok
    simp [exOk] at hok
  | ok f =>
    have h := C9_update_merge updExisting updPayload 99 f hres
    refine ⟨f, rfl, h.1, h.2.1, h.2.2.1, ?_, ?_, ?_⟩
    · exact h.2.2.2.2.2.2.2.2.2.2.2.2.1 rfl
    · exact h.2.2.2.2.2.2.2.2.2.2.2.2.2.2.2.2.2.2.2.2.1 rfl
    · exact h.2.2.2.2.2.2.2.2.2.2.2.2.2.2.2.1 "u1" rfl

/- ### C4: spawn failure during a start-triggered restart -/

/-- C4 counterexample.  The claim says that after a start whose gateway
spawn fails with binary-not-found, the port's member set equals the member
set before the start.  Starting the echo flow from the empty supervisor
state with a missing binary is rejected, but the flow remains attached:
the member set changes from [] to ["flow-echo"]. -/
theorem C4_counterexample :
    (startFlow defaultSettings [echoFlow] envNoBin echoFlow {}).2 =
      .error "binaire introuvable : mcp-proxy" ∧
    activeOf (startFlow defaultSettings [echoFlow] envNoBin echoFlow {}).1 8002 ≠
      activeOf ({} : SupState) 8002 := by
  exact ⟨rfl, by decide⟩

/-- C4 (amended): if spawning the gateway child fails with binary-not-found
during a start-triggered port restart, the start is rejected with a
user-visible error and no child is recorded for the port, but the port
state is not untouched: the newly attached flow stays in the port's member
set (the member set after equals the member set before plus the flow id),
and any previously recorded child of the port has already been removed by
the terminate step. -/
theorem C4_amended_spawn_failure (st : SupState)
    (hmem : ((activeOf st 8002).contains "flow-echo") = false) :
    (startFlow defaultSettings [echoFlow] envNoBin echoFlow st).2 =
      .error "binaire introuvable : mcp-proxy" ∧
    activeOf (startFlow defaultSettings [echoFlow] envNoBin echoFlow st).1 8002 =
      activeOf st 8002 ++ ["flow-echo"] ∧
    aget 8002 ((startFlow defaultSettings [echoFlow] envNoBin echoFlow st).1).processes = none := by
  have hact : activateFlow defaultSettings [echoFlow] envNoBin echoFlow st =
      restartPort defaultSettings [echoFlow] envNoBin 8002
        { st with active := aset 8002 (activeOf st 8002 ++ ["flow-echo"]) st.active } := by
    have h0 : activateFlow defaultSettings [echoFlow] envNoBin echoFlow st =
        (if (activeOf st 8002).contains "flow-echo" = true then (st, Except.ok ())
         else restartPort defaultSettings [echoFlow] envNoBin 8002
           { st with active := aset 8002 (activeOf st 8002 ++ ["flow-echo"]) st.active }) := rfl
    rw [h0, hmem]
    simp
  have hids : activeOf (terminatePort 8002
      { st with active := aset 8002 (activeOf st 8002 ++ ["flow-echo"]) st.active }) 8002 =
      activeOf st 8002 ++ ["flow-echo"] := by
    unfold activeOf
    rw [(terminatePort_fields 8002 _).1]
    show (aget 8002 (aset 8002 (activeOf st 8002 ++ ["flow-echo"]) st.active)).getD [] = _
    rw [aget_aset_self]
    rfl
  have hfilt : List.filter (fun f => (activeOf (terminatePort 8002
      { st with active := aset 8002 (activeOf st 8002 ++ ["flow-echo"]) st.active }) 8002).contains f.id)
      [echoFlow] = [echoFlow] := by
    rw [hids]
    simp [echoFlow]
  have hrp : restartPort defaultSettings [echoFlow] envNoBin 8002
      { st with active := aset 8002 (activeOf st 8002 ++ ["flow-echo"]) st.active } =
      ({ terminatePort 8002
           { st with active := aset 8002 (activeOf st 8002 ++ ["flow-echo"]) st.active } with
         restarts := (terminatePort 8002
           { st with active := aset 8002 (activeOf st 8002 ++ ["flow-echo"]) st.active }).restarts ++ [8002],
         files := aset "runtime/port-8002.config.json" echoDoc
           (terminatePort 8002
             { st with active := aset 8002 (activeOf st 8002 ++ ["flow-echo"]) st.active }).files },
       .error "binaire introuvable : mcp-proxy") := by
    unfold restartPort
    dsimp only
    rw [hfilt]
    rfl
  have hsw : startWithDeps defaultSettings [echoFlow] envNoBin ([echoFlow].length + 1)
      echoFlow [] st =
      ({ terminatePort 8002
           { st with active := aset 8002 (activeOf st 8002 ++ ["flow-echo"]) st.active } with
         restarts := (terminatePort 8002
           { st with active := aset 8002 (activeOf st 8002 ++ ["flow-echo"]) st.active }).restarts ++ [8002],
         files := aset "runtime/port-8002.config.json" echoDoc
           (terminatePort 8002
             { st with active := aset 8002 (activeOf st 8002 ++ ["flow-echo"]) st.active }).files },
       .error "binaire introuvable : mcp-proxy") := by
    have h0 : startWithDeps defaultSettings [echoFlow] envNoBin ([echoFlow].length + 1)
        echoFlow [] st =
        (match activateFlow defaultSettings [echoFlow] envNoBin echoFlow st with
         | (st₁, .ok _) => (st₁, .ok ["flow-echo"])
         | (st₁, .error e) => (st₁, .error e)) := rfl
    rw [h0, hact, hrp]
  have hfinal : startFlow defaultSettings [echoFlow] envNoBin echoFlow st =
      ({ terminatePort 8002
           { st with active := aset 8002 (activeOf st 8002 ++ ["flow-echo"]) st.active } with
         restarts := (terminatePort 8002
           { st with active := aset 8002 (activeOf st 8002 ++ ["flow-echo"]) st.active }).restarts ++ [8002],
         files := aset "runtime/port-8002.config.json" echoDoc
           (terminatePort 8002
             { st with active := aset 8002 (activeOf st 8002 ++ ["flow-echo"]) st.active }).files },
       .error "binaire introuvable : mcp-proxy") := by
    unfold startFlow
    rw [hsw]
  refine ⟨by rw [hfinal], ?_, ?_⟩
  · rw [hfinal]
    exact hids
  · rw [hfinal]
    exact terminatePort_processes_self 8002 _

/-- C4 witness: the amended statement instantiated at the empty supervisor
state. -/
theorem C4_amended_spawn_failure_witness :
    (startFlow defaultSettings [echoFlow] envNoBin echoFlow {}).2 =
      .error "binaire introuvable : mcp-proxy" ∧
    activeOf (startFlow defaultSettings [echoFlow] envNoBin echoFlow {}).1 8002 =
      activeOf ({} : SupState) 8002 ++ ["flow-echo"] ∧
    aget 8002 ((startFlow defaultSettings [echoFlow] envNoBin echoFlow {}).1).processes = none :=
  C4_amended_spawn_failure {} (by decide)

/- ### C5: OpenAPI helper readiness timeout -/

/-- C5 counterexample.  The claim says that when the helper's port fails to
open within the wait budget, the flow is detached from its gateway port.
Starting openapiFlow from the empty state under envHelperTimeout fails with
the readiness error, yet the flow is still attached to port 8001. -/
theorem C5_counterexample :
    (startFlow defaultSettings [openapiFlow] envHelperTimeout openapiFlow {}).2 =
      .error "Le serveur OpenAPI MCP n\x27a pas d\xe9marr\xe9 \xe0 temps" ∧
    "f5" ∈ activeOf (startFlow defaultSettings [openapiFlow] envHelperTimeout openapiFlow {}).1 8001 := by
  exact ⟨rfl, by decide⟩

/-- C5 (amended): when the OpenAPI helper's port fails to open within the
wait budget during a flow start, the originating start fails with a
user-visible error and no gateway child is recorded, but the flow is NOT
detached: it remains in its gateway port's member set, the timed-out helper
remains registered under the flow id, and no warning line is emitted on
this path. -/
theorem C5_amended_helper_timeout (st : SupState)
    (hmem : ((activeOf st 8001).contains "f5") = false)
    (hhelp : aget "f5" st.helpers = none) :
    (startFlow defaultSettings [openapiFlow] envHelperTimeout openapiFlow st).2 =
      .error "Le serveur OpenAPI MCP n\x27a pas d\xe9marr\xe9 \xe0 temps" ∧
    activeOf (startFlow defaultSettings [openapiFlow] envHelperTimeout openapiFlow st).1 8001 =
      activeOf st 8001 ++ ["f5"] ∧
    aget "f5" ((startFlow defaultSettings [openapiFlow] envHelperTimeout openapiFlow st).1).helpers =
      some f5HelperInfo ∧
    aget 8001 ((startFlow defaultSettings [openapiFlow] envHelperTimeout openapiFlow st).1).processes = none ∧
    ((startFlow defaultSettings [openapiFlow] envHelperTimeout openapiFlow st).1).warns = st.warns := by
  have hact : activateFlow defaultSettings [openapiFlow] envHelperTimeout openapiFlow st =
      restartPort defaultSettings [openapiFlow] envHelperTimeout 8001
        { st with active := aset 8001 (activeOf st 8001 ++ ["f5"]) st.active } := by
    have h0 : activateFlow defaultSettings [openapiFlow] envHelperTimeout openapiFlow st =
        (if (activeOf st 8001).contains "f5" = true then (st, Except.ok ())
         else restartPort defaultSettings [openapiFlow] envHelperTimeout 8001
           { st with active := aset 8001 (activeOf st 8001 ++ ["f5"]) st.active }) := rfl
    rw [h0, hmem]
    simp
  have hids : activeOf (terminatePort 8001
      { st with active := aset 8001 (activeOf st 8001 ++ ["f5"]) st.active }) 8001 =
      activeOf st 8001 ++ ["f5"] := by
    unfold activeOf
    rw [(terminatePort_fields 8001 _).1]
    show (aget 8001 (aset 8001 (activeOf st 8001 ++ ["f5"]) st.active)).getD [] = _
    rw [aget_aset_self]
    rfl
  have hfilt : List.filter (fun f => (activeOf (terminatePort 8001
      { st with active := aset 8001 (activeOf st 8001 ++ ["f5"]) st.active }) 8001).contains f.id)
      [openapiFlow] = [openapiFlow] := by
    rw [hids]
    simp [openapiFlow]
  have hh2 : aget openapiFlow.id
      ({ terminatePort 8001
           { st with active := aset 8001 (activeOf st 8001 ++ ["f5"]) st.active } with
         restarts := (terminatePort 8001
           { st with active := aset 8001 (activeOf st 8001 ++ ["f5"]) st.active }).restarts ++ [8001] } : SupState).helpers = none :=
    terminatePort_helpers_none 8001
      { st with active := aset 8001 (activeOf st 8001 ++ ["f5"]) st.active } "f5" hhelp
  have hens : ensureOpenapiHelper envHelperTimeout openapiFlow
      { terminatePort 8001
          { st with active := aset 8001 (activeOf st 8001 ++ ["f5"]) st.active } with
        restarts := (terminatePort 8001
          { st with active := aset 8001 (activeOf st 8001 ++ ["f5"]) st.active }).restarts ++ [8001] } =
      ({ terminatePort 8001
           { st with active := aset 8001 (activeOf st 8001 ++ ["f5"]) st.active } with
         restarts := (terminatePort 8001
           { st with active := aset 8001 (activeOf st 8001 ++ ["f5"]) st.active }).restarts ++ [8001],
         helpers := aset "f5" f5HelperInfo
           (terminatePort 8001
             { st with active := aset 8001 (activeOf st 8001 ++ ["f5"]) st.active }).helpers },
       .error "Le serveur OpenAPI MCP n\x27a pas d\xe9marr\xe9 \xe0 temps") := by
    unfold ensureOpenapiHelper
    rw [hh2]
    rfl
  have hbuild : buildProxyServers envHelperTimeout [openapiFlow] []
      { terminatePort 8001
          { st with active := aset 8001 (activeOf st 8001 ++ ["f5"]) st.active } with
        restarts := (terminatePort 8001
          { st with active := aset 8001 (activeOf st 8001 ++ ["f5"]) st.active }).restarts ++ [8001] } =
      ({ terminatePort 8001
           { st with active := aset 8001 (activeOf st 8001 ++ ["f5"]) st.active } with
         restarts := (terminatePort 8001
           { st with active := aset 8001 (activeOf st 8001 ++ ["f5"]) st.active }).restarts ++ [8001],
         helpers := aset "f5" f5HelperInfo
           (terminatePort 8001
             { st with active := aset 8001 (activeOf st 8001 ++ ["f5"]) st.active }).helpers },
       .error "Le serveur OpenAPI MCP n\x27a pas d\xe9marr\xe9 \xe0 temps") := by
    unfold buildProxyServers
    dsimp only
    rw [hens]
    rfl
  have hrp : restartPort defaultSettings [openapiFlow] envHelperTimeout 8001
      { st with active := aset 8001 (activeOf st 8001 ++ ["f5"]) st.active } =
      ({ terminatePort 8001
           { st with active := aset 8001 (activeOf st 8001 ++ ["f5"]) st.active } with
         restarts := (terminatePort 8001
           { st with active := aset 8001 (activeOf st 8001 ++ ["f5"]) st.active }).restarts ++ [8001],
         helpers := aset "f5" f5HelperInfo
           (terminatePort 8001
             { st with active := aset 8001 (activeOf st 8001 ++ ["f5"]) st.active }).helpers },
       .error "Le serveur OpenAPI MCP n\x27a pas d\xe9marr\xe9 \xe0 temps") := by
    unfold restartPort
    dsimp only
    rw [hfilt, hbuild]
    rfl
  have hfinal : startFlow defaultSettings [openapiFlow] envHelperTimeout openapiFlow st =
      ({ terminatePort 8001
           { st with active := aset 8001 (activeOf st 8001 ++ ["f5"]) st.active } with
         restarts := (terminatePort 8001
           { st with active := aset 8001 (activeOf st 8001 ++ ["f5"]) st.active }).restarts ++ [8001],
         helpers := aset "f5" f5HelperInfo
           (terminatePort 8001
             { st with active := aset 8001 (activeOf st 8001 ++ ["f5"]) st.active }).helpers },
       .error "Le serveur OpenAPI MCP n\x27a pas d\xe9marr\xe9 \xe0 temps") := by
    have h0 : startWithDeps defaultSettings [openapiFlow] envHelperTimeout
        ([openapiFlow].length + 1) openapiFlow [] st =
        (match activateFlow defaultSettings [openapiFlow] envHelperTimeout openapiFlow st with
         | (st₁, .ok _) => (st₁, .ok ["f5"])
         | (st₁, .error e) => (st₁, .error e)) := rfl
    unfold startFlow
    rw [h0, hact, hrp]
  refine ⟨by rw [hfinal], ?_, ?_, ?_, ?_⟩
  · rw [hfinal]
    exact hids
  · rw [hfinal]
    exact aget_aset_self "f5" f5HelperInfo _
  · rw [hfinal]
    exact terminatePort_processes_self 8001 _
  · rw [hfinal]
    exact (terminatePort_fields 8001 _).2.2.2.1

/-- C5 witness: the amended statement instantiated at the empty supervisor
state. -/
theorem C5_amended_helper_timeout_witness :
    (startFlow defaultSettings [openapiFlow] envHelperTimeout openapiFlow {}).2 =
      .error "Le serveur OpenAPI MCP n\x27a pas d\xe9marr\xe9 \xe0 temps" ∧
    activeOf (startFlow defaultSettings [openapiFlow] envHelperTimeout openapiFlow {}).1 8001 =
      activeOf ({} : SupState) 8001 ++ ["f5"] ∧
    aget "f5" ((startFlow defaultSettings [openapiFlow] envHelperTimeout openapiFlow {}).1).helpers =
      some f5HelperInfo ∧
    aget 8001 ((startFlow defaultSettings [openapiFlow] envHelperTimeout openapiFlow {}).1).processes = none ∧
    ((startFlow defaultSettings [openapiFlow] envHelperTimeout openapiFlow {}).1).warns =
      ({} : SupState).warns :=
  C5_amended_helper_timeout {} (by decide) rfl

/- ### C8: start is idempotent -/

/-- Bool-to-membership direction of List.contains for strings. -/
theorem mem_of_containsS {l : List String} {a : String}
    (h : l.contains a = true) : a ∈ l := by
  simpa using h

/-- Membership-to-Bool direction of List.contains for strings. -/
theorem containsS_of_mem {l : List String} {a : String} (h : a ∈ l) :
    l.contains a = true := by
  simpa using h

/-- Updating one port's member list reads back as written. -/
theorem activeOf_update_self (st : SupState) (port : Nat) (l : List String) :
    activeOf { st with active := aset port l st.active } port = l := by
  unfold activeOf
  show (aget port (aset port l st.active)).getD [] = l
  rw [aget_aset_self]
  rfl

/-- Updating one port's member list leaves the others unchanged. -/
theorem activeOf_update_other (st : SupState) (port q : Nat) (l : List String)
    (h : q ≠ port) :
    activeOf { st with active := aset port l st.active } q = activeOf st q := by
  unfold activeOf
  show (aget q (aset port l st.active)).getD [] = (aget q st.active).getD []
  rw [aget_aset_ne port q l h]

/-- activateFlow only ever grows the member sets. -/
theorem activateFlow_active_mono (settings : Settings) (flows : List Flow)
    (env : Env) (flow : Flow) (st : SupState) (p : Nat) (i : String)
    (hmem : i ∈ activeOf st p) :
    i ∈ activeOf ((activateFlow settings flows env flow st).1) p := by
  unfold activateFlow
  dsimp only
  split
  · exact hmem
  · unfold activeOf
    rw [restartPort_active]
    show i ∈ (aget p (aset (portForFlow settings flow)
      (activeOf st (portForFlow settings flow) ++ [flow.id]) st.active)).getD []
    by_cases hp : p = portForFlow settings flow
    · subst hp
      rw [aget_aset_self]
      exact List.mem_append_left _ hmem
    · rw [aget_aset_ne _ _ _ hp]
      exact hmem

/-- After a successful activateFlow the flow is in its port's member set. -/
theorem activateFlow_post (settings : Settings) (flows : List Flow) (env : Env)
    (flow : Flow) (st sta : SupState) (u : Unit)
    (h : activateFlow settings flows env flow st = (sta, .ok u)) :
    flow.id ∈ activeOf sta (portForFlow settings flow) := by
  unfold activateFlow at h
  dsimp only at h
  split at h
  case _ hcond =>
    rw [Prod.mk.injEq] at h
    obtain ⟨h1, -⟩ := h
    subst h1
    exact mem_of_containsS hcond
  case _ hcond =>
    have h1 : ((restartPort settings flows env (portForFlow settings flow)
        { st with active := (aset (portForFlow settings flow)
          (activeOf st (portForFlow settings flow) ++ [flow.id]) st.active) }).1) = sta :=
      congrArg Prod.fst h
    rw [← h1]
    unfold activeOf
    rw [restartPort_active]
    show flow.id ∈ (aget (portForFlow settings flow) (aset (portForFlow settings flow)
      (activeOf st (portForFlow settings flow) ++ [flow.id]) st.active)).getD []
    rw [aget_aset_self]
    exact List.mem_append_right _ (List.mem_singleton.mpr rfl)

/-- If the flow is already attached, activateFlow is a no-op. -/
theorem activateFlow_noop (settings : Settings) (flows : List Flow) (env : Env)
    (flow : Flow) (st : SupState)
    (h : flow.id ∈ activeOf st (portForFlow settings flow)) :
    activateFlow settings flows env flow st = (st, .ok ()) := by
  unfold activateFlow
  dsimp only
  rw [containsS_of_mem h]
  simp

/-- startWithDeps only ever grows the member sets. -/
theorem startWithDeps_active_mono (settings : Settings) (flows : List Flow)
    (env : Env) :
    ∀ (fuel : Nat) (flow : Flow) (visited : List String) (st : SupState)
      (p : Nat) (i : String), i ∈ activeOf st p →
      i ∈ activeOf ((startWithDeps settings flows env fuel flow visited st).1) p
  | 0, _, _, _, _, _, hmem => hmem
  | fuel + 1, flow, visited, st, p, i, hmem => by
    unfold startWithDeps
    dsimp only
    split
    · exact hmem
    · cases hdep : resolveDependency settings flows flow with
      | error e => exact hmem
      | ok o =>
        cases o with
        | none =>
          dsimp only
          rcases hact : activateFlow settings flows env flow st with ⟨sta, ra⟩
          have h1 := activateFlow_active_mono settings flows env flow st p i hmem
          rw [hact] at h1
          cases ra <;> exact h1
        | some dep =>
          dsimp only
          rcases hrec : startWithDeps settings flows env fuel dep (visited ++ [flow.id]) st
            with ⟨stm, rm⟩
          have h1 := startWithDeps_active_mono settings flows env fuel dep
            (visited ++ [flow.id]) st p i hmem
          rw [hrec] at h1
          cases rm with
          | error e => exact h1
          | ok vm =>
            dsimp only
            rcases hact : activateFlow settings flows env flow stm with ⟨sta, ra⟩
            have h2 := activateFlow_active_mono settings flows env flow stm p i h1
            rw [hact] at h2
            cases ra <;> exact h2

/-- Rerun lemma: a successful startWithDeps walk, replayed from any state
whose member sets contain those of the walk's final state, performs no
mutation at all and returns that state unchanged with the same visited
list. -/
theorem startWithDeps_rerun (settings : Settings) (flows : List Flow) (env : Env) :
    ∀ (fuel : Nat) (flow : Flow) (visited : List String) (st st₁ : SupState)
      (v : List String),
      startWithDeps settings flows env fuel flow visited st = (st₁, .ok v) →
      ∀ st₂ : SupState,
        (∀ p i, i ∈ activeOf st₁ p → i ∈ activeOf st₂ p) →
        startWithDeps settings flows env fuel flow visited st₂ = (st₂, .ok v)
  | 0, flow, visited, st, st₁, v, h, st₂, hsub => by
    exact absurd (congrArg Prod.snd h) (by simp [startWithDeps])
  | fuel + 1, flow, visited, st, st₁, v, h, st₂, hsub => by
    unfold startWithDeps at h ⊢
    dsimp only at h ⊢
    by_cases hvis : visited.contains flow.id = true
    · rw [if_pos hvis] at h ⊢
      rw [Prod.mk.injEq] at h
      obtain ⟨-, h2⟩ := h
      rw [← Except.ok.inj h2]
    · rw [if_neg hvis] at h ⊢
      cases hdep : resolveDependency settings flows flow with
      | error e =>
        rw [hdep] at h
        dsimp only at h
        exact absurd (congrArg Prod.snd h) (by simp)
      | ok o =>
        rw [hdep] at h
        cases o with
        | none =>
          dsimp only at h ⊢
          rcases hact : activateFlow settings flows env flow st with ⟨sta, ra⟩
          rw [hact] at h
          cases ra with
          | error e => exact absurd (congrArg Prod.snd h) (by simp)
          | ok u =>
            dsimp only at h
            rw [Prod.mk.injEq] at h
            obtain ⟨h1, h2⟩ := h
            have hpost := activateFlow_post settings flows env flow st sta u hact
            have hmem2 : flow.id ∈ activeOf st₂ (portForFlow settings flow) :=
              hsub _ _ (h1 ▸ hpost)
            rw [activateFlow_noop settings flows env flow st₂ hmem2]
            dsimp only
            rw [← Except.ok.inj h2]
        | some dep =>
          dsimp only at h ⊢
          rcases hrec : startWithDeps settings flows env fuel dep (visited ++ [flow.id]) st
            with ⟨stm, rm⟩
          rw [hrec] at h
          cases rm with
          | error e => exact absurd (congrArg Prod.snd h) (by simp)
          | ok vm =>
            dsimp only at h
            rcases hact : activateFlow settings flows env flow stm with ⟨sta, ra⟩
            rw [hact] at h
            cases ra with
            | error e => exact absurd (congrArg Prod.snd h) (by simp)
            | ok u =>
              dsimp only at h
              rw [Prod.mk.injEq] at h
              obtain ⟨h1, h2⟩ := h
              have hmono : ∀ p i, i ∈ activeOf stm p → i ∈ activeOf sta p := by
                intro p i hm
                have h3 := activateFlow_active_mono settings flows env flow stm p i hm
                rw [hact] at h3
                exact h3
              have hrerun := startWithDeps_rerun settings flows env fuel dep
                (visited ++ [flow.id]) st stm vm hrec st₂
                (fun p i hm => hsub p i (h1 ▸ hmono p i hm))
              rw [hrerun]
              dsimp only
              have hpost := activateFlow_post settings flows env flow stm sta u hact
              have hmem2 : flow.id ∈ activeOf st₂ (portForFlow settings flow) :=
                hsub _ _ (h1 ▸ hpost)
              rw [activateFlow_noop settings flows env flow st₂ hmem2]
              dsimp only
              rw [← Except.ok.inj h2]

/-- C8: start is idempotent on the success path.  A successful start(F)
returns the supervisor state st₁ and a state dict d; running start(F) again
from st₁ changes nothing — the entire supervisor state (port member sets,
recorded processes, helper registry, config files, event and warning
traces) is returned unchanged together with the same dict — and in
particular the second start performs no port restart: the restart trace of
st₁ is not extended. -/
theorem C8_start_idempotent (settings : Settings) (flows : List Flow)
    (env : Env) (flow : Flow) (st st₁ : SupState) (d : StateDict)
    (h : startFlow settings flows env flow st = (st₁, .ok d)) :
    startFlow settings flows env flow st₁ = (st₁, .ok d) ∧
    ((startFlow settings flows env flow st₁).1).restarts = st₁.restarts := by
  unfold startFlow at h ⊢
  rcases hsw : startWithDeps settings flows env (flows.length + 1) flow [] st with ⟨sta, ra⟩
  rw [hsw] at h
  cases ra with
  | error e => exact absurd (congrArg Prod.snd h) (by simp)
  | ok v =>
    dsimp only at h
    rw [Prod.mk.injEq] at h
    obtain ⟨h1, h2⟩ := h
    have hrerun := startWithDeps_rerun settings flows env (flows.length + 1) flow [] st sta v
      hsw st₁ (fun p i hm => h1 ▸ hm)
    rw [hrerun]
    dsimp only
    constructor
    · rw [← Except.ok.inj h2, h1]
    · rfl

/-- C8 witness: starting the echo flow from the empty state succeeds; the
theorem applied to that run shows the second start returns the same state
and dict. -/
theorem C8_start_idempotent_witness :
    startFlow defaultSettings [echoFlow] envAllOk echoFlow
      ({ active := [(8002, ["flow-echo"])],
         processes := [(8002,
           { label := "port-8002", flow_ids := ["flow-echo"], pid := 42,
             started_at := 5,
             command := ["mcp-proxy", "-config", "runtime/port-8002.config.json"],
             port := some 8002, mode := "sse" })],
         files := [("runtime/port-8002.config.json", echoDoc)],
         events := [{ etype := "flow_started", flowId := "port-8002" }],
         restarts := [8002] } : SupState) =
      (({ active := [(8002, ["flow-echo"])],
          processes := [(8002,
            { label := "port-8002", flow_ids := ["flow-echo"], pid := 42,
              started_at := 5,
              command := ["mcp-proxy", "-config", "runtime/port-8002.config.json"],
              port := some 8002, mode := "sse" })],
          files := [("runtime/port-8002.config.json", echoDoc)],
          events := [{ etype := "flow_started", flowId := "port-8002" }],
          restarts := [8002] } : SupState),
        .ok { running := true, pid := some 42, started_at := some 5,
              port := some 8002,
              command := ["mcp-proxy", "-config", "runtime/port-8002.config.json"] }) :=
  (C8_start_idempotent defaultSettings [echoFlow] envAllOk echoFlow {} _ _ rfl).1

/- ### C10: per-port event labels -/

/-- C10: every event a port restart broadcasts carries flowId equal to the
shared port label "port-(P)" (never an individual flow's id); every event a
log pump broadcasts carries its ProcessInfo's label, which for a gateway
child is "port-(P)" and for a helper is "openapi-(flow id)": any child
recorded by a restart that was not there before is labelled port-(its
port), and any helper registered that was not there before is labelled
openapi-(its flow id).  Subscribers therefore cannot tell which flow on a
shared port an event belongs to. -/
theorem C10_shared_port_labels (settings : Settings) (flows : List Flow)
    (env : Env) (port : Nat) (st : SupState) (ev : Event) (label : String)
    (lines : List String) (exitCode : Option Int) (ev2 : Event) (p : Nat)
    (i : ProcInfo) (fid : String) (j : ProcInfo) :
    (ev ∈ ((restartPort settings flows env port st).1).events →
      ev ∈ st.events ∨ (ev.etype = "flow_started" ∧ ev.flowId = portLabel port)) ∧
    (ev2 ∈ pipeLogsEvents label lines exitCode → ev2.flowId = label) ∧
    (aget p ((restartPort settings flows env port st).1).processes = some i →
      aget p st.processes = some i ∨ i.label = portLabel p) ∧
    (aget fid ((restartPort settings flows env port st).1).helpers = some j →
      aget fid st.helpers = some j ∨ j.label = helperLabel fid) := by
  refine ⟨restartPort_events_mem settings flows env port st ev, ?_,
    restartPort_processes_some settings flows env port st p i,
    restartPort_helpers_some settings flows env port st fid j⟩
  intro h
  unfold pipeLogsEvents at h
  rcases List.mem_append.mp h with h2 | h2
  · obtain ⟨t, -, rfl⟩ := List.mem_map.mp h2
    rfl
  · rcases List.mem_singleton.mp h2 with rfl
    rfl

/-- C10 witness: restarting port 8002 with the echo flow emits exactly the
flow_started event labelled "port-8002", and the pump events of that child
are labelled "port-8002" as well. -/
theorem C10_shared_port_labels_witness :
    (({ etype := "flow_started", flowId := "port-8002" } : Event) ∈
        ({ active := [(8002, ["flow-echo"])] } : SupState).events ∨
      (("flow_started" : String) = "flow_started" ∧
        ("port-8002" : String) = portLabel 8002)) ∧
    (({ etype := "log", flowId := "port-8002", line := some "hi" } : Event).flowId =
      "port-8002") := by
  constructor
  · exact (C10_shared_port_labels defaultSettings [echoFlow] envAllOk 8002
      { active := [(8002, ["flow-echo"])] }
      { etype := "flow_started", flowId := "port-8002" } "port-8002" ["hi"] none
      { etype := "log", flowId := "port-8002", line := some "hi" } 0
      { label := "x", flow_ids := [], pid := 0, started_at := 0, command := [] } "y"
      { label := "x", flow_ids := [], pid := 0, started_at := 0, command := [] }).1
      (by decide)
  · exact (C10_shared_port_labels defaultSettings [echoFlow] envAllOk 8002
      { active := [(8002, ["flow-echo"])] }
      { etype := "flow_started", flowId := "port-8002" } "port-8002" ["hi"] none
      { etype := "log", flowId := "port-8002", line := some "hi" } 0
      { label := "x", flow_ids := [], pid := 0, started_at := 0, command := [] } "y"
      { label := "x", flow_ids := [], pid := 0, started_at := 0, command := [] }).2.1
      (by decide)

end MPS
